import Mathlib

/-!
Shallow embedding of the NBA auction-draft assistant's bidding engine and
draft-state transitions, together with proofs about its specification.

Numbers: TS `number` values are modelled as `ℚ` for money, impacts and
probabilities, and as `ℤ` for integer-valued scores, tiers and counts.
`Math.floor` is `Int.floor`, `Math.round` is `jsRound` (half up, matching JS).
Human-readable `reasoning` strings are advisory output and are not embedded;
record fields that no computation reads (`name`, `team`, `stats`) are omitted.
-/

/-- Player eligibility positions (types/index.ts `Position`). -/
inductive Position where
  | PG | SG | SF | PF | C
deriving DecidableEq, Repr

/-- Roster slot labels (types/index.ts `RosterSlot.position`). -/
inductive SlotPos where
  | PG | SG | G | SF | PF | F | C | UTIL | BENCH
deriving DecidableEq, Repr

/-- Roster strategies (types/index.ts `RosterStrategy`). -/
inductive RosterStrategy where
  | stars_scrubs | balanced | punt_ft | punt_fg | punt_to | punt_assists
deriving DecidableEq, Repr

/-- A detected strategy is a roster strategy or the literal 'unknown'. -/
inductive DetectedStrategy where
  | strat (s : RosterStrategy) | unknown
deriving DecidableEq, Repr

/-- Category strength classification ('strong' | 'weak' | 'neutral'). -/
inductive Strength where
  | strong | weak | neutral
deriving DecidableEq, Repr

/-- Draft phase ('early' | 'middle' | 'late'). -/
inductive Phase where
  | early | middle | late
deriving DecidableEq, Repr

/-- Recommendation confidence ('low' | 'medium' | 'high'). -/
inductive Confidence where
  | low | medium | high
deriving DecidableEq, Repr

/-- Bidding-timing aggressiveness ('passive' | 'moderate' | 'aggressive'). -/
inductive Aggressiveness where
  | passive | moderate | aggressive
deriving DecidableEq, Repr

/-- Bidding-pattern aggressiveness ('conservative' | 'moderate' | 'aggressive'). -/
inductive PatternAggressiveness where
  | conservative | moderate | aggressive
deriving DecidableEq, Repr

/-- Threat level of a competing team for a nominated player. -/
inductive ThreatLevel where
  | low | medium | high | critical
deriving DecidableEq, Repr

/-- Budget pressure level of a team. -/
inductive PressureLevel where
  | desperate | high | moderate | comfortable
deriving DecidableEq, Repr

/-- Recommended strategy from the threat assessment. -/
inductive ThreatStrategy where
  | bidEarly | waitAndSee | forceOverbid | avoid | bluffOpportunity
deriving DecidableEq, Repr

/-- strategicRecommendations.nominationTiming ('now' | 'wait' | 'never'). -/
inductive NominationTiming where
  | now | wait | never
deriving DecidableEq, Repr

/-- strategicRecommendations.biddingApproach. -/
inductive BiddingApproach where
  | aggressive | patient | bluff | avoid
deriving DecidableEq, Repr

/-- 9-category standardized impact vector (types/index.ts `CategoryImpact`). -/
structure CategoryImpact where
  points : ℚ
  rebounds : ℚ
  assists : ℚ
  steals : ℚ
  blocks : ℚ
  fg_pct : ℚ
  ft_pct : ℚ
  threePointers : ℚ
  turnovers : ℚ
deriving DecidableEq, Repr

/-- The 9 impact values in the object-literal key order used throughout the
source (points, rebounds, assists, steals, blocks, fg_pct, ft_pct,
threePointers, turnovers), for the `Object.values`/`Object.entries` loops. -/
def CategoryImpact.toList (c : CategoryImpact) : List ℚ :=
  [c.points, c.rebounds, c.assists, c.steals, c.blocks, c.fg_pct, c.ft_pct,
   c.threePointers, c.turnovers]

/-- Per-category strength classification map (RosterAnalysis.categoryNeeds). -/
structure CatNeeds where
  points : Strength
  rebounds : Strength
  assists : Strength
  steals : Strength
  blocks : Strength
  fg_pct : Strength
  ft_pct : Strength
  threePointers : Strength
  turnovers : Strength
deriving DecidableEq, Repr

/-- `Object.entries` of a categoryNeeds map zipped with a player's impacts,
in the literal key order. -/
def CatNeeds.zipImpact (n : CatNeeds) (c : CategoryImpact) : List (Strength × ℚ) :=
  [(n.points, c.points), (n.rebounds, c.rebounds), (n.assists, c.assists),
   (n.steals, c.steals), (n.blocks, c.blocks), (n.fg_pct, c.fg_pct),
   (n.ft_pct, c.ft_pct), (n.threePointers, c.threePointers),
   (n.turnovers, c.turnovers)]

/-- Catalog player (types/index.ts `Player`; display-only fields omitted). -/
structure Player where
  id : String
  positions : List Position
  projectedValue : ℚ
  tier : ℤ
  categoryStrengths : CategoryImpact
deriving DecidableEq, Repr

/-- A drafted player: the player plus acquisition data
(types/index.ts `DraftedPlayer`). -/
structure DraftedPlayer where
  player : Player
  draftedBy : String
  actualCost : ℚ
  draftOrder : ℤ
deriving DecidableEq, Repr

/-- One roster slot (types/index.ts `RosterSlot`). -/
structure RosterSlot where
  position : SlotPos
  player : Option DraftedPlayer := none
  required : Bool := true
deriving DecidableEq, Repr

/-- The operator's roster (types/index.ts `MyRoster`). -/
structure MyRoster where
  slots : List RosterSlot
  totalSpent : ℚ
  remainingBudget : ℚ
deriving DecidableEq, Repr

/-- Position-needs map of a TeamInfo (string-keyed in TS, with exactly the
keys set by `initializeAllTeams`). -/
structure PosNeeds where
  PG : ℤ
  SG : ℤ
  SF : ℤ
  PF : ℤ
  C : ℤ
  G : ℤ
  F : ℤ
  UTIL : ℤ
  BENCH : ℤ
  any : ℤ
deriving DecidableEq, Repr

/-- Lookup `positionNeeds[pos]` for a player position. -/
def PosNeeds.get (n : PosNeeds) : Position → ℤ
  | .PG => n.PG
  | .SG => n.SG
  | .SF => n.SF
  | .PF => n.PF
  | .C => n.C

/-- Decrement `positionNeeds[pos]` for a player position. -/
def PosNeeds.dec (n : PosNeeds) : Position → PosNeeds
  | .PG => { n with PG := n.PG - 1 }
  | .SG => { n with SG := n.SG - 1 }
  | .SF => { n with SF := n.SF - 1 }
  | .PF => { n with PF := n.PF - 1 }
  | .C => { n with C := n.C - 1 }

/-- Full participant model (types/index.ts `TeamInfo`). -/
structure TeamInfo where
  teamName : String
  remainingBudget : ℚ
  totalSpent : ℚ
  playersOwned : List DraftedPlayer
  slotsRemaining : ℤ
  positionNeeds : PosNeeds
  categoryStrengths : CategoryImpact
  averagePlayerValue : ℚ
  isMyTeam : Bool
deriving DecidableEq, Repr

/-- Legacy budget tracking record (types/index.ts `TeamBudgetInfo`). -/
structure TeamBudgetInfo where
  teamName : String
  remainingBudget : ℚ
  playersOwned : ℤ
  slotsRemaining : ℤ
deriving DecidableEq, Repr

/-- Roster analysis (types/index.ts `RosterAnalysis`). -/
structure RosterAnalysis where
  currentCategoryTotals : CategoryImpact
  categoryNeeds : CatNeeds
  recommendedStrategy : RosterStrategy
  positionalFlexibility : ℚ
deriving DecidableEq, Repr

/-- Budget allocation targets (types/index.ts `BudgetAllocation`). -/
structure BudgetAllocation where
  earlyPhaseTarget : ℚ
  middlePhaseTarget : ℚ
  latePhaseTarget : ℚ
  starPlayerBudget : ℚ
deriving DecidableEq, Repr

/-- The draft snapshot passed into the engine (types/index.ts `DraftState`;
the optional `currentNomination` and `competitiveIntelligence` fields are
never read by the embedded computations and are omitted). -/
structure DraftState where
  totalBudget : ℚ
  playersRemaining : List Player
  playersDrafted : List DraftedPlayer
  myRoster : MyRoster
  draftPhase : Phase
  totalTeams : ℤ
  selectedStrategy : RosterStrategy
  rosterAnalysis : RosterAnalysis
  budgetAllocation : BudgetAllocation
  otherTeamsBudgets : Option (List TeamBudgetInfo) := none
  allTeams : List TeamInfo
deriving DecidableEq, Repr

/-- JS `Math.round`: round half toward positive infinity. -/
def jsRound (q : ℚ) : ℚ := (⌊q + 1 / 2⌋ : ℤ)

/-- JS division which is finite only for a nonzero denominator: `none`
models the NaN/Infinity a JS division by zero produces. -/
def qdiv? (a b : ℚ) : Option ℚ := if b = 0 then none else some (a / b)

/-! ## rosterUtils.ts -/

/-- Mutable needs record built by `getRosterNeeds` (keys PG SG SF PF C any). -/
structure RosterNeeds where
  PG : ℤ
  SG : ℤ
  SF : ℤ
  PF : ℤ
  C : ℤ
  any : ℤ
deriving DecidableEq, Repr

/-- Lookup `needs[pos]` for a player position. -/
def RosterNeeds.get (n : RosterNeeds) : Position → ℤ
  | .PG => n.PG
  | .SG => n.SG
  | .SF => n.SF
  | .PF => n.PF
  | .C => n.C

/-- One iteration of the `getRosterNeeds` forEach loop: an empty slot bumps
the need of its position; flexible G/F slots prefer PG/SF when already
needed, else SG/PF; UTIL and BENCH bump `any`. -/
def rosterNeedsStep (n : RosterNeeds) (slot : RosterSlot) : RosterNeeds :=
  match slot.player with
  | some _ => n
  | none =>
    match slot.position with
    | .PG => { n with PG := n.PG + 1 }
    | .SG => { n with SG := n.SG + 1 }
    | .G => if n.PG > 0 then { n with PG := n.PG + 1 } else { n with SG := n.SG + 1 }
    | .SF => { n with SF := n.SF + 1 }
    | .PF => { n with PF := n.PF + 1 }
    | .F => if n.SF > 0 then { n with SF := n.SF + 1 } else { n with PF := n.PF + 1 }
    | .C => { n with C := n.C + 1 }
    | .UTIL => { n with any := n.any + 1 }
    | .BENCH => { n with any := n.any + 1 }

/-- rosterUtils.ts `getRosterNeeds`. -/
def getRosterNeeds (roster : MyRoster) : RosterNeeds :=
  roster.slots.foldl rosterNeedsStep ⟨0, 0, 0, 0, 0, 0⟩

/-! ## strategyUtils.ts -/

/-- strategyUtils.ts `calculateStrategyFit`: how well a player matches the
selected archetype, in [0,1]. -/
def calculateStrategyFit (player : Player) (strategy : RosterStrategy)
    (rosterAnalysis : RosterAnalysis) : ℚ :=
  let impact := player.categoryStrengths
  let needs := rosterAnalysis.categoryNeeds
  match strategy with
  | .stars_scrubs =>
    if player.tier ≤ 2 then 0.9 else if player.projectedValue ≤ 5 then 0.7 else 0.3
  | .balanced =>
    let balanceScore := (needs.zipImpact impact).foldl
      (fun acc pr =>
        let acc := if pr.1 = .weak ∧ pr.2 > 0.5 then acc + 0.1 else acc
        if pr.1 = .strong ∧ pr.2 < -0.5 then acc - 0.1 else acc)
      0.5
    max 0 (min 1 balanceScore)
  | .punt_ft =>
    if impact.ft_pct < -0.5 then 0.8 else if impact.ft_pct > 0.5 then 0.2 else 0.6
  | .punt_fg =>
    if impact.fg_pct < -0.5 then 0.8 else if impact.fg_pct > 0.5 then 0.2 else 0.6
  | .punt_to =>
    if impact.turnovers > 0.5 then 0.9 else if impact.turnovers < -0.5 then 0.3 else 0.6
  | .punt_assists =>
    if impact.assists < -0.5 then 0.8 else if impact.assists > 1.0 then 0.2 else 0.6

/-- strategyUtils.ts `calculatePuntStrategyScore` (0-15 points). -/
def calculatePuntStrategyScore (player : Player) (roster : MyRoster)
    (selectedStrategy : RosterStrategy) (rosterAnalysis : RosterAnalysis) : ℤ :=
  let filledSlots := (roster.slots.filter (fun s => s.player.isSome)).length
  let playerImpact := player.categoryStrengths
  if filledSlots ≤ 3 then
    let strategyFit := calculateStrategyFit player selectedStrategy rosterAnalysis
    let positiveCategories := (playerImpact.toList.filter (fun i => decide (i > 0))).length
    let breadth : ℤ :=
      if positiveCategories ≥ 5 then 5
      else if positiveCategories ≥ 3 then 3
      else if positiveCategories ≥ 2 then 1 else 0
    min 15 (⌊strategyFit * 10⌋ + breadth)
  else
    let pairs := rosterAnalysis.categoryNeeds.zipImpact playerImpact
    let weakPairs := pairs.filter (fun pr => decide (pr.1 = Strength.weak))
    let autoPunt : ℤ :=
      if weakPairs.length ≥ 2 then
        max 0 (min 8 (weakPairs.foldl
          (fun acc pr =>
            if pr.2 < -0.3 then acc + 2 else if pr.2 > 0.5 then acc - 1 else acc)
          0))
      else 0
    let strategyFit := calculateStrategyFit player selectedStrategy rosterAnalysis
    min 15 (autoPunt + ⌊strategyFit * 7⌋)

/-! ## biddingScores.ts -/

/-- biddingScores.ts `getPositionalScarcity`: remaining players eligible at
the position with tier at or under the ceiling. -/
def getPositionalScarcity (position : Position) (playersRemaining : List Player)
    (tier : ℤ) : ℤ :=
  ((playersRemaining.filter
    (fun p => decide (position ∈ p.positions) && decide (p.tier ≤ tier))).length : ℤ)

/-- biddingScores.ts `analyzeNominationTiming`, reduced to its
`isEarlyOpportunity` flag (the `reasoning` string is advisory only):
true when the player's tier beats the running average drafted tier by
more than 0.5 (average defaults to 3 for an empty draft). -/
def analyzeNominationTiming (player : Player)
    (playersDrafted : List DraftedPlayer) : Bool :=
  let avgDraftedTier : ℚ :=
    if playersDrafted.length = 0 then 3
    else ((playersDrafted.map (fun d => d.player.tier)).sum : ℚ) / (playersDrafted.length : ℚ)
  decide ((player.tier : ℚ) < avgDraftedTier - 0.5)

/-- biddingScores.ts `calculateRosterFitScore` (0-25 points). -/
def calculateRosterFitScore (player : Player) (roster : MyRoster)
    (draftState : DraftState) : ℤ :=
  let needs := getRosterNeeds roster
  let emptySlots := (roster.slots.filter (fun s => s.player.isNone)).length
  let filledSlots := (roster.slots.filter (fun s => s.player.isSome)).length
  let rosterAnalysis := draftState.rosterAnalysis
  if filledSlots = 0 then
    min 25 (15 + (if player.tier ≤ 2 then 5 else 0)
      + (if player.positions.length > 1 then 3 else 0))
  else
    let base : ℤ :=
      if filledSlots ≤ 2 then 12 + (if player.tier ≤ 3 then 3 else 0) else 0
    let hasPositionalNeed := player.positions.any (fun pos => decide (needs.get pos > 0))
    -- Math.max over the mapped needs; `foldr max 0` agrees with the JS value in
    -- this branch because the guard guarantees a positive entry exists.
    let posScore : ℤ :=
      if hasPositionalNeed then
        min 10 ((player.positions.map needs.get).foldr max 0 * 3)
      else if needs.any > 0 then 3 else 0
    let catScore : ℤ :=
      if filledSlots ≥ 3 then
        max 0 (min 10 ((rosterAnalysis.categoryNeeds.zipImpact player.categoryStrengths).foldl
          (fun acc pr =>
            if pr.1 = Strength.weak ∧ pr.2 > 0.5 then acc + 2
            else if pr.1 = Strength.weak ∧ pr.2 > 0 then acc + 1
            else if pr.1 = Strength.strong ∧ pr.2 < -0.5 then acc - 1
            else acc)
          0))
      else
        min 8 ⌊(player.categoryStrengths.toList.filter (fun i => decide (i > 0))).sum * 2⌋
    let flex : ℤ := if player.positions.length > 1 then 2 else 0
    let urgency : ℤ :=
      if emptySlots ≤ 3 ∧ hasPositionalNeed then 3
      else if emptySlots ≤ 6 ∧ hasPositionalNeed then 1 else 0
    min 25 (base + posScore + catScore + flex + urgency)

/-- biddingScores.ts `calculateRemainingPlayersScore` (0-20 points). -/
def calculateRemainingPlayersScore (player : Player)
    (playersRemaining : List Player) : ℤ :=
  let totalPlayersInPool := playersRemaining.length
  if totalPlayersInPool > 150 then
    let tierPts : ℤ :=
      if player.tier = 1 then 10 else if player.tier = 2 then 8
      else if player.tier = 3 then 6 else if player.tier = 4 then 4 else 2
    let tierScarcity := (playersRemaining.filter (fun p => decide (p.tier = player.tier))).length
    let scarcityPts : ℤ :=
      if player.tier ≤ 2 ∧ tierScarcity ≤ 10 then 5
      else if player.tier ≤ 3 ∧ tierScarcity ≤ 15 then 3
      else if tierScarcity ≤ 20 then 1 else 0
    let sameTierBetter := (playersRemaining.filter
      (fun p => decide (p.tier = player.tier)
        && decide (p.projectedValue > player.projectedValue))).length
    let qualityPts : ℤ :=
      if sameTierBetter = 0 then 5 else if sameTierBetter ≤ 2 then 3
      else if sameTierBetter ≤ 5 then 1 else 0
    min 20 (tierPts + scarcityPts + qualityPts)
  else
    let scarcityScores := player.positions.map (fun pos =>
      ((playersRemaining.filter (fun p => decide (pos ∈ p.positions)
        && decide (p.tier ≤ player.tier + 1))).length : ℤ))
    -- Math.min over the per-position scarcities; with no positions the JS value
    -- is Infinity and no threshold branch fires, matching the `none` case.
    let posPts : ℤ :=
      match scarcityScores.min? with
      | none => 0
      | some minScarcity =>
        if minScarcity ≤ 2 then 10 else if minScarcity ≤ 4 then 7
        else if minScarcity ≤ 8 then 4 else if minScarcity ≤ 15 then 2 else 0
    let tierScarcity := (playersRemaining.filter (fun p => decide (p.tier = player.tier))).length
    let tierPts : ℤ :=
      if tierScarcity ≤ 3 then 5 else if tierScarcity ≤ 6 then 3
      else if tierScarcity ≤ 10 then 1 else 0
    let betterAlternatives := (playersRemaining.filter
      (fun p => decide (p.projectedValue > player.projectedValue)
        && p.positions.any (fun pos => decide (pos ∈ player.positions)))).length
    let dropPts : ℤ :=
      if betterAlternatives = 0 then 5 else if betterAlternatives ≤ 2 then 3
      else if betterAlternatives ≤ 5 then 1 else 0
    min 20 (posPts + tierPts + dropPts)

/-! ## competitiveAnalysis.ts -/

/-- competitiveAnalysis.ts `calculateTeamPositionNeeds`: remaining needs after
subtracting owned players (each owned position consumes its slot need first,
then the `any` pool). -/
def calculateTeamPositionNeeds (team : TeamInfo) : PosNeeds :=
  team.playersOwned.foldl
    (fun needs dp => dp.player.positions.foldl
      (fun needs pos =>
        if needs.get pos > 0 then needs.dec pos
        else if needs.any > 0 then { needs with any := needs.any - 1 }
        else needs)
      needs)
    team.positionNeeds

/-- Result of `analyzeCompetitiveInterest`. -/
structure CompetitiveInterest where
  interestedTeams : ℤ
  avgBudgetPerSlot : ℚ
  maxCompetitorBudget : ℚ
deriving DecidableEq, Repr

/-- competitiveAnalysis.ts `analyzeCompetitiveInterest`. A competing team is
interested when its budget per remaining slot covers 80% of projected value
and it has positional need. The average budget per slot divides by the
competitors' total remaining slots (unguarded in the source; `ℚ` division
gives 0 there, and every downstream comparison then agrees with the
JS Infinity/NaN outcome because the value is only used under an `> 0` test
whose both sides yield zero bonus points). -/
def analyzeCompetitiveInterest (player : Player) (allTeams : List TeamInfo) :
    CompetitiveInterest :=
  let otherTeams := allTeams.filter (fun t => !t.isMyTeam)
  let interestedTeams := ((otherTeams.filter (fun team =>
    let budgetPerSlot : ℚ :=
      if team.slotsRemaining > 0 then team.remainingBudget / (team.slotsRemaining : ℚ) else 0
    let hasPositionalNeed := player.positions.any (fun pos =>
      let needs := calculateTeamPositionNeeds team
      decide (needs.get pos > 0) || decide (needs.any > 0))
    decide (budgetPerSlot ≥ player.projectedValue * 0.8) && hasPositionalNeed)).length : ℤ)
  let totalBudget := (otherTeams.map (fun t => t.remainingBudget)).sum
  let maxCompetitorBudget := (otherTeams.map (fun t => t.remainingBudget)).foldl max 0
  let avgBudgetPerSlot : ℚ :=
    if otherTeams.length = 0 then 0
    else totalBudget / (((otherTeams.map (fun t => t.slotsRemaining)).sum : ℤ) : ℚ)
  ⟨interestedTeams, avgBudgetPerSlot, maxCompetitorBudget⟩

/-! ## biddingScores.ts, budget and efficiency scores -/

/-- The competitive-advantage section of `calculateBudgetScore` (0-5 points
for interest level plus 0-2 points for budget advantage), factored over the
competitive-interest summary it reads. -/
def budgetCompetitiveScore (ci : CompetitiveInterest) (myBudgetPerSlot : ℚ) : ℤ :=
  let interest : ℤ :=
    if ci.interestedTeams = 0 then 5 else if ci.interestedTeams ≤ 2 then 3
    else if ci.interestedTeams ≤ 4 then 1 else 0
  let advantage : ℤ :=
    if ci.avgBudgetPerSlot > 0 then
      let budgetAdvantage := myBudgetPerSlot / ci.avgBudgetPerSlot
      if budgetAdvantage > 1.5 then 2 else if budgetAdvantage > 1.2 then 1 else 0
    else 0
  interest + advantage

/-- The legacy fallback section of `calculateBudgetScore` comparing against
`otherTeamsBudgets` ratios (0-5 points). With no competitor entries the JS
average is 0/0 = NaN: every comparison against it is false and no points
are added, matching the explicit zero branch here. -/
def budgetFallbackScore (teams : List TeamBudgetInfo) (myBudgetPerSlot : ℚ) : ℤ :=
  if teams.length > 0 then
    let competitorsBudgets := (teams.filter (fun t => decide (t.slotsRemaining > 0))).map
      (fun t => t.remainingBudget / (max 1 (t.slotsRemaining : ℚ)))
    if competitorsBudgets.length = 0 then 0
    else
      let avgCompetitorBudget := competitorsBudgets.sum / (competitorsBudgets.length : ℚ)
      if myBudgetPerSlot > avgCompetitorBudget * 1.5 then 5
      else if myBudgetPerSlot > avgCompetitorBudget * 1.2 then 3
      else if myBudgetPerSlot > avgCompetitorBudget then 1 else 0
  else 0

/-- biddingScores.ts `calculateBudgetScore` (0-20 points). -/
def calculateBudgetScore (player : Player) (currentBid : ℚ) (roster : MyRoster)
    (otherTeamsBudgets : Option (List TeamBudgetInfo))
    (allTeams : List TeamInfo) : ℤ :=
  let myBudget := roster.remainingBudget
  let emptySlots := (roster.slots.filter (fun s => s.player.isNone)).length
  let budgetAfterBid := myBudget - (currentBid + 1)
  let budgetRatio := budgetAfterBid / (max 1 (emptySlots : ℚ))
  let health : ℤ :=
    if budgetRatio > 15 then 8 else if budgetRatio > 10 then 6
    else if budgetRatio > 5 then 4 else if budgetRatio > 2 then 2 else 0
  let nextBid := currentBid + 1
  let afford : ℤ :=
    if nextBid ≤ player.projectedValue * 0.7 then 7
    else if nextBid ≤ player.projectedValue * 0.8 then 5
    else if nextBid ≤ player.projectedValue * 0.9 then 3
    else if nextBid ≤ player.projectedValue then 1 else 0
  let myBudgetPerSlot := myBudget / (max 1 (emptySlots : ℚ))
  let comp : ℤ :=
    if allTeams.length > 0 then
      budgetCompetitiveScore (analyzeCompetitiveInterest player allTeams) myBudgetPerSlot
    else
      match otherTeamsBudgets with
      | some teams => budgetFallbackScore teams myBudgetPerSlot
      | none => 0
  min 20 (health + afford + comp)

/-- biddingScores.ts `calculateValueEfficiencyScore` (0-20 points). -/
def calculateValueEfficiencyScore (player : Player) (currentBid : ℚ)
    (draftPhase : Phase) : ℤ :=
  let nextBid := currentBid + 1
  let efficiency := player.projectedValue / nextBid
  let base : ℤ :=
    if efficiency ≥ 1.5 then 12 else if efficiency ≥ 1.3 then 10
    else if efficiency ≥ 1.15 then 8 else if efficiency ≥ 1.0 then 6
    else if efficiency ≥ 0.9 then 4 else if efficiency ≥ 0.8 then 2 else 0
  let tierAdj : ℤ :=
    if player.tier = 1 ∧ efficiency > 1.0 then 4
    else if player.tier = 2 ∧ efficiency > 1.1 then 3
    else if player.tier ≤ 3 ∧ efficiency > 1.2 then 2
    else if efficiency > 1.3 then 1 else 0
  let opportunity : ℤ :=
    if player.tier ≤ 2 ∧ efficiency > 1.0 then 4
    else if player.tier ≤ 3 ∧ efficiency > 1.15 then 3
    else if draftPhase = Phase.late ∧ efficiency > 1.2 then 4
    else if efficiency > 1.25 then 2 else 0
  min 20 (base + tierAdj + opportunity)

/-! ## advancedCompetitionAnalysis.ts -/

/-- Opponent strategy inference result (evidence strings and focus lists are
advisory and not embedded). -/
structure OpponentStrategy where
  teamName : String
  detectedStrategy : DetectedStrategy
  confidence : ℚ
deriving DecidableEq, Repr

/-- advancedCompetitionAnalysis.ts `detectOpponentStrategy`: scores six
archetypes from spend pattern and category totals; fewer than 2 drafted
players yields the neutral default. -/
def detectOpponentStrategy (team : TeamInfo) : OpponentStrategy :=
  let teamPlayers := team.playersOwned
  if teamPlayers.length < 2 then
    { teamName := team.teamName, detectedStrategy := .unknown, confidence := 0 }
  else
    let totalSpent := team.totalSpent
    let avgSpent := totalSpent / (teamPlayers.length : ℚ)
    let expensivePlayers := teamPlayers.filter (fun p => decide (p.actualCost > avgSpent * 1.5))
    let cheapPlayers := teamPlayers.filter (fun p => decide (p.actualCost < avgSpent * 0.7))
    let starsScore : ℚ :=
      if expensivePlayers.length ≥ 2 ∧ cheapPlayers.length ≥ 2 then 3 else 0
    let c := team.categoryStrengths
    let weakCount := (c.toList.filter (fun v => decide (v < -0.5))).length
    let strongCount := (c.toList.filter (fun v => decide (v > 0.5))).length
    let puntFt : ℚ := if c.ft_pct < -0.5 ∧ weakCount ≤ 2 then 2 else 0
    let puntFg : ℚ := if c.fg_pct < -0.5 ∧ weakCount ≤ 2 then 2 else 0
    let puntTo : ℚ := if c.turnovers < -0.5 ∧ weakCount ≤ 2 then 2 else 0
    let puntAst : ℚ := if c.assists < -0.5 ∧ weakCount ≤ 2 then 2 else 0
    let balancedScore : ℚ := if weakCount ≤ 1 ∧ strongCount ≥ 3 then 2 else 0
    -- strategyScores in object-literal insertion order
    let scores : List (RosterStrategy × ℚ) :=
      [(.stars_scrubs, starsScore), (.balanced, balancedScore), (.punt_ft, puntFt),
       (.punt_fg, puntFg), (.punt_to, puntTo), (.punt_assists, puntAst)]
    -- Math.max over the six scores; all are nonnegative so foldr max 0 agrees
    let maxScore := (scores.map Prod.snd).foldr max 0
    let detected : DetectedStrategy :=
      if maxScore > 0 then
        match scores.find? (fun pr => decide (pr.2 = maxScore)) with
        | some pr => .strat pr.1
        | none => .unknown
      else .unknown
    { teamName := team.teamName, detectedStrategy := detected,
      confidence := min (maxScore / 3) 1 }

/-- Position-priority spending shares (BiddingPatterns.positionPriorities). -/
structure PosPriorities where
  PG : ℚ
  SG : ℚ
  SF : ℚ
  PF : ℚ
  C : ℚ
deriving DecidableEq, Repr

/-- Total cost of a team's players eligible at a position
(`positionSpending[pos]` accumulation in `analyzeBiddingPatterns`). -/
def positionSpendingOf (teamPlayers : List DraftedPlayer) (pos : Position) : ℚ :=
  ((teamPlayers.filter (fun p => decide (pos ∈ p.player.positions))).map
    (fun p => p.actualCost)).sum

/-- `totalSpending`: sum of the per-position spends (note a multi-position
player is counted once per eligible position, exactly as the source does). -/
def totalSpendingOf (teamPlayers : List DraftedPlayer) : ℚ :=
  positionSpendingOf teamPlayers .PG + positionSpendingOf teamPlayers .SG
    + positionSpendingOf teamPlayers .SF + positionSpendingOf teamPlayers .PF
    + positionSpendingOf teamPlayers .C

/-- `tierSpending[tier]` accumulation in `analyzeBiddingPatterns`. -/
def tierSpendingOf (teamPlayers : List DraftedPlayer) (tier : ℤ) : ℚ :=
  ((teamPlayers.filter (fun p => decide (p.player.tier = tier))).map
    (fun p => p.actualCost)).sum

/-- Bidding-pattern inference result (bluff fields are constant 0 in the
source and omitted). -/
structure BiddingPatterns where
  teamName : String
  aggressiveness : PatternAggressiveness
  averageOverbid : ℚ
  positionPriorities : PosPriorities
  tierPreferences : List (ℤ × ℚ)
  lastFiveBids : List ℚ
  lastFiveOverbids : List ℚ
deriving DecidableEq, Repr

/-- advancedCompetitionAnalysis.ts `analyzeBiddingPatterns`. The
`tierPreferences` entries divide by `totalSpending` WITHOUT a zero guard
(the source guards `positionPriorities` behind `totalSpending > 0` but not
`tierPreferences`); ℚ division yields 0 where JS yields NaN — the
guardedness is captured separately by `tierPreferenceD`. -/
def analyzeBiddingPatterns (team : TeamInfo) : BiddingPatterns :=
  let teamPlayers := team.playersOwned
  if teamPlayers.length = 0 then
    { teamName := team.teamName, aggressiveness := .moderate, averageOverbid := 0,
      positionPriorities := ⟨0.2, 0.2, 0.2, 0.2, 0.2⟩,
      tierPreferences := [(1, 0.2), (2, 0.2), (3, 0.2), (4, 0.2), (5, 0.2)],
      lastFiveBids := [], lastFiveOverbids := [] }
  else
    let overbids := teamPlayers.map (fun p => p.actualCost - p.player.projectedValue)
    let averageOverbid := overbids.sum / (overbids.length : ℚ)
    let aggressiveness : PatternAggressiveness :=
      if averageOverbid > 5 then .aggressive
      else if averageOverbid < -2 then .conservative else .moderate
    let totalSpending := totalSpendingOf teamPlayers
    let share := fun pos => positionSpendingOf teamPlayers pos / totalSpending
    let positionPriorities : PosPriorities :=
      if totalSpending > 0 then ⟨share .PG, share .SG, share .SF, share .PF, share .C⟩
      else ⟨0.2, 0.2, 0.2, 0.2, 0.2⟩
    let tiers := (teamPlayers.map (fun p => p.player.tier)).dedup
    let tierPreferences := tiers.map (fun t => (t, tierSpendingOf teamPlayers t / totalSpending))
    let lastFive := teamPlayers.drop (teamPlayers.length - 5)
    { teamName := team.teamName, aggressiveness := aggressiveness,
      averageOverbid := averageOverbid, positionPriorities := positionPriorities,
      tierPreferences := tierPreferences,
      lastFiveBids := lastFive.map (fun p => p.actualCost),
      lastFiveOverbids := lastFive.map (fun p => p.actualCost - p.player.projectedValue) }

/-- The positionNeeds entries other than 'any', in literal key order (for
the `mustFillPositions` loops; the source pushes the raw string keys,
including the flex keys G/F/UTIL/BENCH, as "positions"). -/
def PosNeeds.entriesNonAny (n : PosNeeds) : List (SlotPos × ℤ) :=
  [(.PG, n.PG), (.SG, n.SG), (.SF, n.SF), (.PF, n.PF), (.C, n.C),
   (.G, n.G), (.F, n.F), (.UTIL, n.UTIL), (.BENCH, n.BENCH)]

/-- Budget pressure analysis result (the `desperation` sub-record is
flattened into three Boolean fields). -/
structure BudgetPressure where
  teamName : String
  pressureLevel : PressureLevel
  mustFillPositions : List SlotPos
  slotsRemaining : ℤ
  averageBudgetPerSlot : ℚ
  likelyToOverbid : Bool
  estimatedPanicPoint : ℤ
  needsStarPlayer : Bool
  runningOutOfTime : Bool
  budgetConstraints : Bool
deriving DecidableEq, Repr

/-- advancedCompetitionAnalysis.ts `analyzeBudgetPressure` (first
implementation, with draft-progress conditions). -/
def analyzeBudgetPressure (team : TeamInfo) : BudgetPressure :=
  let avgBudgetPerSlot : ℚ :=
    if team.slotsRemaining > 0 then team.remainingBudget / (team.slotsRemaining : ℚ) else 0
  let draftProgress : ℚ := ((13 : ℚ) - (team.slotsRemaining : ℚ)) / 13
  let pressureLevel : PressureLevel :=
    if avgBudgetPerSlot < 5 ∧ team.slotsRemaining > 3 then .desperate
    else if avgBudgetPerSlot < 10 ∧ team.slotsRemaining > 2 then .high
    else if avgBudgetPerSlot < 15 ∨ draftProgress > 0.7 then .moderate
    else .comfortable
  let mustFillPositions :=
    (team.positionNeeds.entriesNonAny.filter (fun pr => decide (pr.2 > 0))).map Prod.fst
  let needsStarPlayer :=
    decide ((team.playersOwned.filter (fun p => decide (p.player.tier ≤ 2))).length = 0)
      && decide (draftProgress < 0.5)
  let runningOutOfTime := decide (team.slotsRemaining ≤ 3) && decide (draftProgress > 0.8)
  let budgetConstraints := decide (avgBudgetPerSlot < 8)
  let likelyToOverbid :=
    decide (pressureLevel = .desperate)
      || (decide (pressureLevel = .high) && (needsStarPlayer || runningOutOfTime))
  { teamName := team.teamName, pressureLevel := pressureLevel,
    mustFillPositions := mustFillPositions, slotsRemaining := team.slotsRemaining,
    averageBudgetPerSlot := avgBudgetPerSlot, likelyToOverbid := likelyToOverbid,
    estimatedPanicPoint := max 0 (team.slotsRemaining - 3),
    needsStarPlayer := needsStarPlayer, runningOutOfTime := runningOutOfTime,
    budgetConstraints := budgetConstraints }

/-- Generic insertion of an element into a sorted list (stable insertion
sort used to model the JS array sorts; membership is all any claim needs). -/
def insertSorted (le : α → α → Bool) (x : α) : List α → List α
  | [] => [x]
  | y :: ys => if le x y then x :: y :: ys else y :: insertSorted le x ys

/-- Stable insertion sort by a boolean "comes at or before" relation. -/
def sortListBy (le : α → α → Bool) (l : List α) : List α :=
  l.foldr (insertSorted le) []

/-- One entry of `ThreatAssessment.threateningTeams` (reasoning strings
omitted). -/
structure ThreatTeam where
  teamName : String
  threatLevel : ThreatLevel
  maxLikelyBid : ℚ
  bidProbability : ℚ
  strategicFit : ℚ
deriving DecidableEq, Repr

/-- Numeric order of threat levels used by the sort comparator. -/
def threatOrderVal : ThreatLevel → ℤ
  | .critical => 4
  | .high => 3
  | .medium => 2
  | .low => 1

/-- The per-team body of the `generateThreatAssessment` loop. The
`detectOpponentStrategy` call feeds only reasoning strings and is skipped. -/
def threatForTeam (player : Player) (team : TeamInfo) : ThreatTeam :=
  let patterns := analyzeBiddingPatterns team
  let pressure := analyzeBudgetPressure team
  let hasPositionalNeed :=
    player.positions.any (fun pos => decide (team.positionNeeds.get pos > 0))
      || decide (team.positionNeeds.any > 0)
  let fit1 : ℚ := if hasPositionalNeed then 0.5 + 0.2 else 0.5
  let categoryFit :=
    (List.zip player.categoryStrengths.toList team.categoryStrengths.toList).foldl
      (fun acc pr => if pr.2 < -0.5 ∧ pr.1 > 0.5 then acc + 0.1 else acc) 0
  let fit2 := fit1 + min categoryFit 0.3
  let avgBudgetPerSlot : ℚ :=
    if team.slotsRemaining > 0 then team.remainingBudget / (team.slotsRemaining : ℚ) else 0
  let canAfford := avgBudgetPerSlot ≥ player.projectedValue * 0.7
  let strategicFit := if canAfford then fit2 else min fit2 0.3
  let bidProbability :=
    min (strategicFit + (if pressure.likelyToOverbid then 0.2 else 0)
      + (if team.slotsRemaining ≤ 5 then 0.1 else 0)) 0.95
  let baseBid := player.projectedValue
  let overbidMultiplier := 1 + patterns.averageOverbid / baseBid
  let pressureMultiplier : ℚ :=
    if pressure.pressureLevel = .desperate then 1.2
    else if pressure.pressureLevel = .high then 1.1 else 1.0
  let maxLikelyBid := min (baseBid * overbidMultiplier * pressureMultiplier) team.remainingBudget
  let threatLevel : ThreatLevel :=
    if bidProbability > 0.8 ∧ maxLikelyBid > player.projectedValue * 1.1 then .critical
    else if bidProbability > 0.6 ∧ maxLikelyBid > player.projectedValue then .high
    else if bidProbability > 0.4 then .medium else .low
  { teamName := team.teamName, threatLevel := threatLevel,
    maxLikelyBid := jsRound maxLikelyBid, bidProbability := bidProbability,
    strategicFit := strategicFit }

/-- Threat assessment result (the echoed `player` field is omitted). -/
structure ThreatAssessment where
  threateningTeams : List ThreatTeam
  recommendedStrategy : ThreatStrategy
  expectedFinalCost : ℚ
  competitionIntensity : ℚ
deriving DecidableEq, Repr

/-- advancedCompetitionAnalysis.ts `generateThreatAssessment`. With no
competing teams `competitionIntensity` is JS NaN (all comparisons false,
giving 'wait_and_see') while ℚ division gives 0 (giving
'bluff_opportunity'); the divergence touches only this advisory field. -/
def generateThreatAssessment (player : Player) (allTeams : List TeamInfo) :
    ThreatAssessment :=
  let otherTeams := allTeams.filter (fun t => !t.isMyTeam)
  let unsorted := otherTeams.map (threatForTeam player)
  let threateningTeams := sortListBy
    (fun a b => decide (threatOrderVal a.threatLevel > threatOrderVal b.threatLevel)
      || (decide (threatOrderVal a.threatLevel = threatOrderVal b.threatLevel)
        && decide (a.bidProbability ≥ b.bidProbability)))
    unsorted
  let highThreatTeams := threateningTeams.filter
    (fun t => decide (t.threatLevel = .critical) || decide (t.threatLevel = .high))
  let expectedFinalCost : ℚ :=
    match highThreatTeams with
    | [] => player.projectedValue
    | h :: rest => (rest.map (fun t => t.maxLikelyBid)).foldl max h.maxLikelyBid
  let competitionIntensity : ℚ :=
    ((threateningTeams.filter (fun t => decide (t.bidProbability > 0.5))).length : ℚ)
      / (otherTeams.length : ℚ)
  let recommendedStrategy : ThreatStrategy :=
    if competitionIntensity > 0.6 then .avoid
    else if competitionIntensity > 0.4 then .bidEarly
    else if competitionIntensity < 0.2 then .bluffOpportunity
    else .waitAndSee
  { threateningTeams := threateningTeams, recommendedStrategy := recommendedStrategy,
    expectedFinalCost := jsRound expectedFinalCost,
    competitionIntensity := competitionIntensity }

/-- strategicRecommendations sub-record. -/
structure StrategicRecommendations where
  nominationTiming : NominationTiming
  biddingApproach : BiddingApproach
  maxRecommendedBid : ℚ
  confidenceLevel : ℚ
deriving DecidableEq, Repr

/-- Advanced competition analysis (the `competitiveIntelligence` sub-record
is produced by the source but never consumed by any downstream computation,
only displayed; it is omitted from the embedding). -/
structure AdvancedCompetitionAnalysis where
  threatAssessment : ThreatAssessment
  strategicRecommendations : StrategicRecommendations
deriving DecidableEq, Repr

/-- advancedCompetitionAnalysis.ts `generateAdvancedCompetitionAnalysis`. -/
def generateAdvancedCompetitionAnalysis (player : Player)
    (draftState : DraftState) : AdvancedCompetitionAnalysis :=
  let threatAssessment := generateThreatAssessment player draftState.allTeams
  let highThreatCount := (threatAssessment.threateningTeams.filter
    (fun t => decide (t.threatLevel = .critical) || decide (t.threatLevel = .high))).length
  let timingApproach : NominationTiming × BiddingApproach :=
    if highThreatCount = 0 then (.now, .patient)
    else if highThreatCount ≥ 3 then (.never, .avoid)
    else if threatAssessment.competitionIntensity > 0.5 then (.wait, .aggressive)
    else (.wait, .patient)
  let maxRecommendedBid := jsRound (min (threatAssessment.expectedFinalCost * 1.05)
    (player.projectedValue * 1.1))
  { threatAssessment := threatAssessment,
    strategicRecommendations :=
      { nominationTiming := timingApproach.1, biddingApproach := timingApproach.2,
        maxRecommendedBid := maxRecommendedBid,
        confidenceLevel := 1 - threatAssessment.competitionIntensity } }

/-! ## The parallel (second) implementations in the competitive-analysis
module, cited by the spec as separate tunings of the same functions. -/

/-- Second `detectOpponentStrategy` implementation (per-player category
averages with −1 thresholds; confidence is 0.25 per piece of evidence).
The unused `playersDrafted` parameter of the source is kept. -/
def detectOpponentStrategyB (team : TeamInfo)
    (playersDrafted : List DraftedPlayer) : OpponentStrategy :=
  let _ := playersDrafted
  let teamPlayers := team.playersOwned
  if teamPlayers.length < 2 then
    { teamName := team.teamName, detectedStrategy := .unknown, confidence := 0 }
  else
    let n : ℚ := (teamPlayers.length : ℚ)
    let c := team.categoryStrengths
    let puntPick : DetectedStrategy × ℕ :=
      if c.ft_pct / n < -1 then (.strat .punt_ft, 1)
      else if c.fg_pct / n < -1 then (.strat .punt_fg, 1)
      else if c.assists / n < -1 then (.strat .punt_assists, 1)
      else if c.turnovers / n < -1 then (.strat .punt_to, 1)
      else (.strat .balanced, 0)
    let focusEvidence := ((c.toList.map (fun v => v / n)).filter
      (fun v => decide (v > 1))).length
    let posCount := fun (pos : Position) =>
      ((teamPlayers.filter (fun p => decide (pos ∈ p.player.positions))).length : ℚ)
    let posEvidence := ([Position.PG, .SG, .SF, .PF, .C].filter
      (fun pos => decide (posCount pos > (teamPlayers.length : ℚ) * 0.4))).length
    { teamName := team.teamName, detectedStrategy := puntPick.1,
      confidence := min (((puntPick.2 + focusEvidence + posEvidence : ℕ) : ℚ) * 0.25) 1 }

/-- Second `analyzeBudgetPressure` implementation (pure budget-per-slot
thresholds; desperate/high always imply likelyToOverbid). -/
def analyzeBudgetPressureB (team : TeamInfo) : BudgetPressure :=
  let budgetPerSlot : ℚ :=
    if team.slotsRemaining > 0 then team.remainingBudget / (team.slotsRemaining : ℚ) else 0
  let levelOverbid : PressureLevel × Bool :=
    if budgetPerSlot < 5 then (.desperate, true)
    else if budgetPerSlot < 10 then (.high, true)
    else if budgetPerSlot < 15 then (.moderate, false)
    else (.comfortable, false)
  let needs := calculateTeamPositionNeeds team
  let mustFillPositions :=
    (needs.entriesNonAny.filter (fun pr => decide (pr.2 > 0))).map Prod.fst
  { teamName := team.teamName, pressureLevel := levelOverbid.1,
    mustFillPositions := mustFillPositions, slotsRemaining := team.slotsRemaining,
    averageBudgetPerSlot := budgetPerSlot, likelyToOverbid := levelOverbid.2,
    estimatedPanicPoint := max 0 (team.slotsRemaining - 3),
    needsStarPlayer :=
      decide ((team.playersOwned.filter (fun p => decide (p.player.tier ≤ 2))).length = 0)
        && decide (team.slotsRemaining ≤ 5),
    runningOutOfTime := decide (team.slotsRemaining ≤ 3),
    budgetConstraints := decide (budgetPerSlot < 10) }

/-! ## biddingLogic.ts -/

/-- The five-part score breakdown. -/
structure ScoreBreakdown where
  rosterFit : ℤ
  remainingPlayersValue : ℤ
  budgetSituation : ℤ
  valueEfficiency : ℤ
  puntStrategy : ℤ
deriving DecidableEq, Repr

/-- Result of `calculateGranularBiddingScore` (reasoning omitted). -/
structure GranularResult where
  score : ℤ
  breakdown : ScoreBreakdown
deriving DecidableEq, Repr

/-- biddingLogic.ts `calculateGranularBiddingScore`: the five sub-scores,
the +5 timing bonus, and the reported score `Math.min(100, totalScore)`. -/
def calculateGranularBiddingScore (player : Player) (currentBid : ℚ)
    (draftState : DraftState) : GranularResult :=
  let isEarlyOpportunity := analyzeNominationTiming player draftState.playersDrafted
  let rosterFit := calculateRosterFitScore player draftState.myRoster draftState
  let remainingPlayersValue := calculateRemainingPlayersScore player draftState.playersRemaining
  let budgetSituation := calculateBudgetScore player currentBid draftState.myRoster
    draftState.otherTeamsBudgets draftState.allTeams
  let valueEfficiency := calculateValueEfficiencyScore player currentBid draftState.draftPhase
  let puntStrategy := calculatePuntStrategyScore player draftState.myRoster
    draftState.selectedStrategy draftState.rosterAnalysis
  let totalScore := rosterFit + remainingPlayersValue + budgetSituation + valueEfficiency
    + puntStrategy + (if isEarlyOpportunity then 5 else 0)
  { score := min 100 totalScore,
    breakdown := ⟨rosterFit, remainingPlayersValue, budgetSituation, valueEfficiency,
      puntStrategy⟩ }

/-- Bluff advice (shouldBluff is encoded by presence; reasoning omitted). -/
structure BluffRecommendation where
  maxBluffBid : ℚ
deriving DecidableEq, Repr

/-- Bidding timing advice (types/index.ts `BiddingTiming`). -/
structure BiddingTiming where
  shouldWaitForOthers : Bool
  aggressivenessLevel : Aggressiveness
  bluffRecommendation : Option BluffRecommendation
deriving DecidableEq, Repr

/-- biddingLogic.ts `calculateBiddingTiming`. -/
def calculateBiddingTiming (player : Player) (currentBid : ℚ)
    (draftState : DraftState) : BiddingTiming :=
  let myRoster := draftState.myRoster
  let filledSlots := (myRoster.slots.filter (fun s => s.player.isSome)).length
  let efficiency := player.projectedValue / (currentBid + 1)
  -- the if/else-if chain mutating (aggressivenessLevel, shouldWaitForOthers)
  -- from the ('moderate', false) defaults
  let base : Aggressiveness × Bool :=
    if filledSlots ≤ 2 then
      if efficiency > 1.2 then (.moderate, false)
      else if efficiency > 1.0 then (.moderate, true)
      else (.passive, true)
    else if filledSlots ≤ 8 then
      if player.tier ≤ 2 ∧ efficiency > 0.9 then (.aggressive, false)
      else if efficiency > 1.1 then (.moderate, false)
      else (.moderate, false)
    else if draftState.draftPhase = Phase.late ∧ efficiency < 1.1 then (.passive, true)
    else (.moderate, false)
  let final : Aggressiveness × Bool :=
    if myRoster.remainingBudget > 120 ∧ efficiency > 1.0 then (.aggressive, base.2)
    else if myRoster.remainingBudget < 50 then (.passive, true)
    else base
  let shouldBluff := player.tier ≤ 2 ∧ player.projectedValue > myRoster.remainingBudget
    ∧ draftState.draftPhase = Phase.early ∧ currentBid < player.projectedValue * 0.7
  { shouldWaitForOthers := final.2, aggressivenessLevel := final.1,
    bluffRecommendation :=
      if shouldBluff then some ⟨min (currentBid + 5) (myRoster.remainingBudget - 20)⟩
      else none }

/-- The final recommendation (types/index.ts `BiddingRecommendation`;
reasoning strings omitted; the fail-fast branch carries no
advancedCompetitionAnalysis, hence the Option). -/
structure BiddingRecommendation where
  shouldBid : Bool
  maxBid : ℚ
  confidence : Confidence
  categoryImpact : CategoryImpact
  biddingTiming : BiddingTiming
  strategyFit : ℚ
  biddingScore : ℤ
  scoreBreakdown : ScoreBreakdown
  advancedCompetitionAnalysis : Option AdvancedCompetitionAnalysis
deriving DecidableEq, Repr

/-- The seven score bands of `getBiddingRecommendation` mapping the bidding
score to `min(floor(value x multiplier), maxAffordable)` (the 65-74 band
uses the raw value with no floor, as the source does). -/
def scoreBandMaxBid (biddingScore : ℤ) (baseValue actualMaxAffordable : ℚ) : ℚ :=
  if biddingScore ≥ 85 then min ((⌊baseValue * 1.1⌋ : ℤ) : ℚ) actualMaxAffordable
  else if biddingScore ≥ 75 then min ((⌊baseValue * 1.05⌋ : ℤ) : ℚ) actualMaxAffordable
  else if biddingScore ≥ 65 then min baseValue actualMaxAffordable
  else if biddingScore ≥ 55 then min ((⌊baseValue * 0.95⌋ : ℤ) : ℚ) actualMaxAffordable
  else if biddingScore ≥ 45 then min ((⌊baseValue * 0.9⌋ : ℤ) : ℚ) actualMaxAffordable
  else if biddingScore ≥ 35 then min ((⌊baseValue * 0.8⌋ : ℤ) : ℚ) actualMaxAffordable
  else min ((⌊baseValue * 0.7⌋ : ℤ) : ℚ) actualMaxAffordable

/-- biddingLogic.ts `getBiddingRecommendation`. -/
def getBiddingRecommendation (player : Player) (currentBid : ℚ)
    (draftState : DraftState) : BiddingRecommendation :=
  let myRoster := draftState.myRoster
  let emptySlots := (myRoster.slots.filter (fun s => s.player.isNone)).length
  let minBudgetNeeded : ℤ := max 1 ((emptySlots : ℤ) - 1)
  let actualMaxAffordable : ℚ := myRoster.remainingBudget - (minBudgetNeeded : ℚ)
  let granularResult := calculateGranularBiddingScore player currentBid draftState
  let biddingScore := granularResult.score
  let scoreBreakdown := granularResult.breakdown
  if currentBid ≥ actualMaxAffordable then
    { shouldBid := false, maxBid := 0, confidence := .high,
      categoryImpact := player.categoryStrengths,
      biddingTiming := ⟨true, .passive, none⟩,
      strategyFit := 0, biddingScore := 0, scoreBreakdown := ⟨0, 0, 0, 0, 0⟩,
      advancedCompetitionAnalysis := none }
  else
    let maxBid : ℚ := scoreBandMaxBid biddingScore player.projectedValue actualMaxAffordable
    let shouldBid := decide (maxBid > currentBid) && decide (biddingScore ≥ 45)
    let confidence0 : Confidence :=
      if biddingScore ≥ 75 then .high else if biddingScore < 55 then .low else .medium
    let biddingTiming := calculateBiddingTiming player currentBid draftState
    let strategyFit := calculateStrategyFit player draftState.selectedStrategy
      draftState.rosterAnalysis
    let aca := generateAdvancedCompetitionAnalysis player draftState
    let competitionAdjustedMaxBid :=
      min maxBid aca.strategicRecommendations.maxRecommendedBid
    let competitionConfidence := aca.strategicRecommendations.confidenceLevel
    let confidence1 : Confidence :=
      if competitionConfidence < 0.3 ∧ confidence0 = .high then .medium else confidence0
    let confidence2 : Confidence :=
      if competitionConfidence < 0.1 ∧ confidence1 = .medium then .low else confidence1
    { shouldBid := shouldBid, maxBid := max 0 competitionAdjustedMaxBid,
      confidence := confidence2, categoryImpact := player.categoryStrengths,
      biddingTiming := biddingTiming, strategyFit := strategyFit,
      biddingScore := biddingScore, scoreBreakdown := scoreBreakdown,
      advancedCompetitionAnalysis := some aca }

/-! ## teamUtils.ts and useDraftState.ts draft/undo transitions -/

/-- Fieldwise sum of two impact vectors. -/
def CategoryImpact.add (a b : CategoryImpact) : CategoryImpact :=
  ⟨a.points + b.points, a.rebounds + b.rebounds, a.assists + b.assists,
   a.steals + b.steals, a.blocks + b.blocks, a.fg_pct + b.fg_pct,
   a.ft_pct + b.ft_pct, a.threePointers + b.threePointers,
   a.turnovers + b.turnovers⟩

/-- Fieldwise difference of two impact vectors. -/
def CategoryImpact.sub (a b : CategoryImpact) : CategoryImpact :=
  ⟨a.points - b.points, a.rebounds - b.rebounds, a.assists - b.assists,
   a.steals - b.steals, a.blocks - b.blocks, a.fg_pct - b.fg_pct,
   a.ft_pct - b.ft_pct, a.threePointers - b.threePointers,
   a.turnovers - b.turnovers⟩

/-- teamUtils.ts `updateTeamAfterDraft`. -/
def updateTeamAfterDraft (team : TeamInfo) (draftedPlayer : DraftedPlayer) : TeamInfo :=
  let newPlayersOwned := team.playersOwned ++ [draftedPlayer]
  let newTotalSpent := team.totalSpent + draftedPlayer.actualCost
  { team with
    remainingBudget := team.remainingBudget - draftedPlayer.actualCost,
    totalSpent := newTotalSpent,
    playersOwned := newPlayersOwned,
    slotsRemaining := team.slotsRemaining - 1,
    categoryStrengths := team.categoryStrengths.add draftedPlayer.player.categoryStrengths,
    averagePlayerValue :=
      if newPlayersOwned.length > 0 then newTotalSpent / (newPlayersOwned.length : ℚ) else 0 }

/-- teamUtils.ts `undoTeamDraft` (removes every owned player with the
removed player's id, as the source `filter` does). -/
def undoTeamDraft (team : TeamInfo) (playerToRemove : DraftedPlayer) : TeamInfo :=
  let newPlayersOwned := team.playersOwned.filter
    (fun p => decide (¬(p.player.id = playerToRemove.player.id)))
  let newTotalSpent := team.totalSpent - playerToRemove.actualCost
  { team with
    remainingBudget := team.remainingBudget + playerToRemove.actualCost,
    totalSpent := newTotalSpent,
    playersOwned := newPlayersOwned,
    slotsRemaining := team.slotsRemaining + 1,
    categoryStrengths := team.categoryStrengths.sub playerToRemove.player.categoryStrengths,
    averagePlayerValue :=
      if newPlayersOwned.length > 0 then newTotalSpent / (newPlayersOwned.length : ℚ) else 0 }

/-- The slot-eligibility predicate inlined in `handleDraftPlayer`: an empty
slot matching the player's positions (G and F are flex, UTIL and BENCH take
anyone; the TS `positions.includes(slot.position)` is false for flex labels
since player positions only range over PG/SG/SF/PF/C). -/
def slotEligibleFor (player : Player) (slot : RosterSlot) : Bool :=
  slot.player.isNone &&
    (match slot.position with
     | .BENCH => true
     | .UTIL => true
     | .PG => decide (Position.PG ∈ player.positions)
     | .SG => decide (Position.SG ∈ player.positions)
     | .SF => decide (Position.SF ∈ player.positions)
     | .PF => decide (Position.PF ∈ player.positions)
     | .C => decide (Position.C ∈ player.positions)
     | .G => decide (Position.PG ∈ player.positions) || decide (Position.SG ∈ player.positions)
     | .F => decide (Position.SF ∈ player.positions) || decide (Position.PF ∈ player.positions))

/-- `slots.find(...)` plus the in-place assignment of `handleDraftPlayer`:
returns the updated slot list and whether a slot was found. -/
def assignFirstSlot (slots : List RosterSlot) (player : Player)
    (dp : DraftedPlayer) : List RosterSlot × Bool :=
  match slots with
  | [] => ([], false)
  | s :: rest =>
    if slotEligibleFor player s then ({ s with player := some dp } :: rest, true)
    else
      let r := assignFirstSlot rest player dp
      (s :: r.1, r.2)

/-- `slots.find(slot => slot.player?.id === id)` plus the clearing
assignment of `handleUndoLastPick`. -/
def clearFirstSlot (slots : List RosterSlot) (pid : String) : List RosterSlot × Bool :=
  match slots with
  | [] => ([], false)
  | s :: rest =>
    match s.player with
    | some dp =>
      if dp.player.id = pid then ({ s with player := none } :: rest, true)
      else
        let r := clearFirstSlot rest pid
        (s :: r.1, r.2)
    | none =>
      let r := clearFirstSlot rest pid
      (s :: r.1, r.2)

/-- The core draft-state fields read and written by the
`useDraftState` draft/undo handlers. -/
structure DraftCore where
  playersRemaining : List Player
  playersDrafted : List DraftedPlayer
  myRoster : MyRoster
  allTeams : List TeamInfo
deriving DecidableEq, Repr

/-- The descending-by-projected-value re-sort applied to the pool on undo. -/
def sortByValueDesc (players : List Player) : List Player :=
  sortListBy (fun a b => decide (a.projectedValue ≥ b.projectedValue)) players

/-- useDraftState.ts `handleDraftPlayer` as a pure state transition: finalize
the current nomination for `draftedBy` at price `finalBid`. Unknown player
ids are a no-op; the operator's roster is touched only when an eligible
empty slot exists (otherwise the drop is silent). -/
def handleDraftPlayer (core : DraftCore) (playerId : String) (finalBid : ℚ)
    (draftedBy : String) : DraftCore :=
  match core.playersRemaining.find? (fun p => decide (p.id = playerId)) with
  | none => core
  | some player =>
    let draftedPlayer : DraftedPlayer :=
      ⟨player, draftedBy, finalBid, (core.playersDrafted.length : ℤ) + 1⟩
    let updatedTeams := core.allTeams.map (fun team =>
      if team.teamName = draftedBy then updateTeamAfterDraft team draftedPlayer else team)
    let remaining2 := core.playersRemaining.filter (fun p => decide (¬(p.id = playerId)))
    let drafted2 := core.playersDrafted ++ [draftedPlayer]
    if draftedBy = "Eyal" then
      let res := assignFirstSlot core.myRoster.slots player draftedPlayer
      let updatedRoster :=
        if res.2 then
          { slots := res.1, totalSpent := core.myRoster.totalSpent + finalBid,
            remainingBudget := core.myRoster.remainingBudget - finalBid }
        else core.myRoster
      ⟨remaining2, drafted2, updatedRoster, updatedTeams⟩
    else ⟨remaining2, drafted2, core.myRoster, updatedTeams⟩

/-- useDraftState.ts `handleUndoLastPick` as a pure state transition. -/
def handleUndoLastPick (core : DraftCore) : DraftCore :=
  match core.playersDrafted.getLast? with
  | none => core
  | some lastDraftedPlayer =>
    let updatedTeams := core.allTeams.map (fun team =>
      if team.teamName = lastDraftedPlayer.draftedBy then undoTeamDraft team lastDraftedPlayer
      else team)
    let remaining2 := sortByValueDesc (core.playersRemaining ++ [lastDraftedPlayer.player])
    let drafted2 := core.playersDrafted.dropLast
    if lastDraftedPlayer.draftedBy = "Eyal" then
      let res := clearFirstSlot core.myRoster.slots lastDraftedPlayer.player.id
      let updatedRoster :=
        if res.2 then
          { slots := res.1,
            totalSpent := core.myRoster.totalSpent - lastDraftedPlayer.actualCost,
            remainingBudget := core.myRoster.remainingBudget + lastDraftedPlayer.actualCost }
        else core.myRoster
      ⟨remaining2, drafted2, updatedRoster, updatedTeams⟩
    else ⟨remaining2, drafted2, core.myRoster, updatedTeams⟩

/-! ## Definedness projections of the engine's ratios (JS division is
finite exactly when the denominator is nonzero; `none` marks a NaN or
Infinity escaping into the result). -/

/-- The budget-per-slot ratio used (identically) by both
`analyzeBudgetPressure` implementations, `analyzeCompetitiveInterest`'s
interest test and `generateThreatAssessment`: guarded by an explicit
`slotsRemaining > 0` zero-branch. -/
def budgetPerSlotD (team : TeamInfo) : Option ℚ :=
  if team.slotsRemaining > 0 then qdiv? team.remainingBudget (team.slotsRemaining : ℚ)
  else some 0

/-- The `tierPreferences[tier]` ratio of `analyzeBiddingPatterns`: divides
the tier's spend by `totalSpending` with NO zero guard (only the empty-team
early return protects it, where the constant default table applies). -/
def tierPreferenceD (team : TeamInfo) (tier : ℤ) : Option ℚ :=
  if team.playersOwned.length = 0 then some 0.2
  else qdiv? (tierSpendingOf team.playersOwned tier) (totalSpendingOf team.playersOwned)

/-- The `competitionIntensity` ratio of `generateThreatAssessment`: divides
the count of probable bidders by the competitor count with NO zero guard
(sorting does not change the count, so the unsorted list is used). -/
def competitionIntensityD (player : Player) (allTeams : List TeamInfo) : Option ℚ :=
  let otherTeams := allTeams.filter (fun t => !t.isMyTeam)
  let threateningTeams := otherTeams.map (threatForTeam player)
  qdiv? ((threateningTeams.filter (fun t => decide (t.bidProbability > 0.5))).length : ℚ)
    (otherTeams.length : ℚ)

/-- The `avgBudgetPerSlot` ratio of `analyzeCompetitiveInterest`: guarded
only against an empty competitor list, NOT against the competitors' total
remaining slots being zero. -/
def interestAvgBudgetPerSlotD (allTeams : List TeamInfo) : Option ℚ :=
  let otherTeams := allTeams.filter (fun t => !t.isMyTeam)
  if otherTeams.length = 0 then some 0
  else qdiv? ((otherTeams.map (fun t => t.remainingBudget)).sum)
    (((otherTeams.map (fun t => t.slotsRemaining)).sum : ℤ) : ℚ)

/-- All tierPreferences entries a team produces are finite. -/
def tierPreferencesAllDefined (team : TeamInfo) : Bool :=
  ((team.playersOwned.map (fun p => p.player.tier)).dedup).all
    (fun t => (tierPreferenceD team t).isSome)

/-! ## Specification-side definitions used by the claims -/

/-- The reservation bound of the fail-fast check: remaining budget minus one
dollar reserved per additional empty slot
(`remainingBudget - max(1, emptySlots - 1)`). -/
def reservationCutoff (ds : DraftState) : ℚ :=
  ds.myRoster.remainingBudget
    - ((max 1 (((ds.myRoster.slots.filter (fun s => s.player.isNone)).length : ℤ) - 1) : ℤ) : ℚ)

/-- Severity order of pressure levels:
comfortable < moderate < high < desperate. -/
def PressureLevel.severity : PressureLevel → ℕ
  | .comfortable => 0
  | .moderate => 1
  | .high => 2
  | .desperate => 3

/-- The TeamInfo fields the round-trip claim promises to restore. -/
def teamFieldsRestored (t2 t : TeamInfo) : Prop :=
  t2.playersOwned = t.playersOwned ∧ t2.remainingBudget = t.remainingBudget
    ∧ t2.totalSpent = t.totalSpent ∧ t2.slotsRemaining = t.slotsRemaining

/-! ## Concrete fixtures for witnesses and counterexamples -/

/-- The all-zero impact vector. -/
def impactZero : CategoryImpact := ⟨0, 0, 0, 0, 0, 0, 0, 0, 0⟩

/-- An impact vector positive in the five counting categories and negative
in the rest. -/
def impactFiveUp : CategoryImpact := ⟨1, 1, 1, 1, 1, -1, -1, -1, -1⟩

/-- Category needs marking every category weak. -/
def needsAllWeak : CatNeeds := ⟨.weak, .weak, .weak, .weak, .weak, .weak, .weak, .weak, .weak⟩

/-- A roster analysis with all-weak needs (any analysis is admissible here:
DraftState carries it as an independent field). -/
def raAllWeak : RosterAnalysis := ⟨impactZero, needsAllWeak, .balanced, 0⟩

/-- The zero budget allocation. -/
def allocZero : BudgetAllocation := ⟨0, 0, 0, 0⟩

/-- The standard initial position-needs table of `initializeAllTeams`. -/
def posNeedsInit : PosNeeds := ⟨1, 1, 1, 1, 2, 1, 1, 2, 3, 8⟩

/-- A tier-1 dual-guard player projected at $60. -/
def scoreCapPlayer : Player := ⟨"p1", [.PG, .SG], 60, 1, impactFiveUp⟩

/-- A tier-3 player already drafted by a competitor at projection. -/
def draftedTier3 : DraftedPlayer := ⟨⟨"d1", [.C], 20, 3, impactZero⟩, "Ben", 20, 1⟩

/-- First of the two centers filling the operator roster's C slots. -/
def centerFill1 : DraftedPlayer := ⟨⟨"c1", [.C], 10, 4, impactZero⟩, "Eyal", 10, 1⟩

/-- Second of the two centers filling the operator roster's C slots. -/
def centerFill2 : DraftedPlayer := ⟨⟨"c2", [.C], 10, 4, impactZero⟩, "Eyal", 10, 2⟩

/-- The standard 13-slot roster with both C slots filled and $200 left. -/
def rosterTwoFilled : MyRoster :=
  { slots := [⟨.PG, none, true⟩, ⟨.SG, none, true⟩, ⟨.G, none, true⟩,
      ⟨.SF, none, true⟩, ⟨.PF, none, true⟩, ⟨.F, none, true⟩,
      ⟨.C, some centerFill1, true⟩, ⟨.C, some centerFill2, true⟩,
      ⟨.UTIL, none, true⟩, ⟨.UTIL, none, true⟩,
      ⟨.BENCH, none, true⟩, ⟨.BENCH, none, true⟩, ⟨.BENCH, none, true⟩],
    totalSpent := 0, remainingBudget := 200 }

/-- The operator's fresh TeamInfo. -/
def eyalTeam : TeamInfo := ⟨"Eyal", 200, 0, [], 13, posNeedsInit, impactZero, 0, true⟩

/-- A broke competing team with a full complement of open slots. -/
def brokeTeam : TeamInfo := ⟨"Ben", 0, 0, [], 13, posNeedsInit, impactZero, 0, false⟩

/-- A concrete draft state on which every sub-score reaches its cap and the
timing bonus fires (total 105, above the reported cap of 100). -/
def scoreCapState : DraftState :=
  { totalBudget := 200, playersRemaining := [], playersDrafted := [draftedTier3],
    myRoster := rosterTwoFilled, draftPhase := .early, totalTeams := 10,
    selectedStrategy := .balanced, rosterAnalysis := raAllWeak,
    budgetAllocation := allocZero, otherTeamsBudgets := none,
    allTeams := [eyalTeam, brokeTeam] }

/-- The same state with only $10 of budget left: the reservation check
(12 dollars needed for 11 extra slots after a first) fires at a $0 bid. -/
def failFastState : DraftState :=
  { scoreCapState with myRoster := { rosterTwoFilled with remainingBudget := 10 } }

/-- A player whose turnovers impact is strongly negative (high turnovers). -/
def puntToLowPlayer : Player := ⟨"lo", [.PG], 10, 3, ⟨0, 0, 0, 0, 0, 0, 0, 0, -1⟩⟩

/-- A player whose turnovers impact is strongly positive (few turnovers). -/
def puntToHighPlayer : Player := ⟨"hi", [.PG], 10, 3, ⟨0, 0, 0, 0, 0, 0, 0, 0, 1⟩⟩

/-- A team owning one player won for $0: its total position spending is 0
and the tierPreferences division is by zero. -/
def zeroCostTeam : TeamInfo :=
  ⟨"Ben", 200, 0, [⟨⟨"z1", [.PG], 10, 1, impactZero⟩, "Ben", 0, 1⟩], 12,
   posNeedsInit, impactZero, 0, false⟩

/-- A competing team owning exactly one player, $190 left, 12 slots open
(Scenario C of the spec). -/
def oneOwnedTeam : TeamInfo :=
  ⟨"Ben", 190, 10, [⟨⟨"w9", [.C], 10, 3, impactZero⟩, "Ben", 10, 1⟩], 12,
   posNeedsInit, impactZero, 10, false⟩

/-- A single point guard in the pool for the round-trip witness. -/
def roundTripPlayer : Player := ⟨"w4", [.PG], 10, 3, impactZero⟩

/-- A one-slot draft core for the round-trip witness. -/
def roundTripCore : DraftCore :=
  ⟨[roundTripPlayer], [], ⟨[⟨.PG, none, true⟩], 0, 200⟩, [eyalTeam]⟩

/-- A draft core whose only empty slot is a center slot, so a pure point
guard has no eligible slot. -/
def noSlotCore : DraftCore :=
  ⟨[roundTripPlayer], [], ⟨[⟨.C, none, true⟩], 0, 200⟩, [eyalTeam]⟩

/-! ## Shared helper lemmas -/

theorem foldr_max_nonneg (l : List ℤ) : 0 ≤ l.foldr max 0 := by
  induction l with
  | nil => simp
  | cons x xs ih => exact le_trans ih (le_max_right x _)

theorem sum_filter_pos_nonneg (l : List ℚ) :
    0 ≤ (l.filter (fun i => decide (i > 0))).sum := by
  apply List.sum_nonneg
  intro x hx
  have hx2 := (List.mem_filter.mp hx).2
  exact le_of_lt (of_decide_eq_true hx2)

theorem strategyFit_bounds (p : Player) (s : RosterStrategy) (ra : RosterAnalysis) :
    0 ≤ calculateStrategyFit p s ra ∧ calculateStrategyFit p s ra ≤ 1 := by
  unfold calculateStrategyFit
  cases s <;> simp only []
  case balanced =>
    constructor
    · exact le_max_left _ _
    · exact max_le (by norm_num) (min_le_left _ _)
  all_goals split_ifs <;> norm_num

theorem puntStrategy_bounds (p : Player) (r : MyRoster) (s : RosterStrategy)
    (ra : RosterAnalysis) :
    0 ≤ calculatePuntStrategyScore p r s ra ∧ calculatePuntStrategyScore p r s ra ≤ 15 := by
  obtain ⟨hf0, hf1⟩ := strategyFit_bounds p s ra
  unfold calculatePuntStrategyScore
  have h10 : 0 ≤ ⌊calculateStrategyFit p s ra * 10⌋ ∧ ⌊calculateStrategyFit p s ra * 10⌋ ≤ 10 := by
    constructor
    · exact Int.floor_nonneg.mpr (by positivity)
    · calc ⌊calculateStrategyFit p s ra * 10⌋ ≤ ⌊(10 : ℚ)⌋ :=
          Int.floor_le_floor (by nlinarith)
        _ = 10 := by norm_num
  have h7 : 0 ≤ ⌊calculateStrategyFit p s ra * 7⌋ ∧ ⌊calculateStrategyFit p s ra * 7⌋ ≤ 7 := by
    constructor
    · exact Int.floor_nonneg.mpr (by positivity)
    · calc ⌊calculateStrategyFit p s ra * 7⌋ ≤ ⌊(7 : ℚ)⌋ :=
          Int.floor_le_floor (by nlinarith)
        _ = 7 := by norm_num
  dsimp only
  split_ifs <;> omega

theorem rosterFit_bounds (p : Player) (r : MyRoster) (ds : DraftState) :
    0 ≤ calculateRosterFitScore p r ds ∧ calculateRosterFitScore p r ds ≤ 25 := by
  unfold calculateRosterFitScore
  have hm := foldr_max_nonneg (p.positions.map (getRosterNeeds r).get)
  have hs : (0:ℤ) ≤ ⌊((p.categoryStrengths.toList.filter (fun i => decide (i > 0))).sum) * 2⌋ :=
    Int.floor_nonneg.mpr (by
      have := sum_filter_pos_nonneg p.categoryStrengths.toList
      positivity)
  dsimp only
  split_ifs <;> omega

theorem remainingPlayers_bounds (p : Player) (pool : List Player) :
    0 ≤ calculateRemainingPlayersScore p pool ∧ calculateRemainingPlayersScore p pool ≤ 20 := by
  unfold calculateRemainingPlayersScore
  dsimp only
  split_ifs <;> try omega
  all_goals (split <;> (try split_ifs) <;> omega)

set_option maxHeartbeats 1000000 in
theorem valueEfficiency_bounds (p : Player) (bid : ℚ) (phase : Phase) :
    0 ≤ calculateValueEfficiencyScore p bid phase ∧ calculateValueEfficiencyScore p bid phase ≤ 20 := by
  simp only [calculateValueEfficiencyScore]
  split_ifs <;> omega

theorem budgetCompetitive_bounds (ci : CompetitiveInterest) (m : ℚ) :
    0 ≤ budgetCompetitiveScore ci m ∧ budgetCompetitiveScore ci m ≤ 7 := by
  simp only [budgetCompetitiveScore]
  split_ifs <;> omega

theorem budgetFallback_bounds (teams : List TeamBudgetInfo) (m : ℚ) :
    0 ≤ budgetFallbackScore teams m ∧ budgetFallbackScore teams m ≤ 5 := by
  simp only [budgetFallbackScore]
  split_ifs <;> omega

theorem budgetScore_bounds (p : Player) (bid : ℚ) (r : MyRoster)
    (otb : Option (List TeamBudgetInfo)) (allTeams : List TeamInfo) :
    0 ≤ calculateBudgetScore p bid r otb allTeams ∧ calculateBudgetScore p bid r otb allTeams ≤ 20 := by
  simp only [calculateBudgetScore]
  have h1 := budgetCompetitive_bounds (analyzeCompetitiveInterest p allTeams)
    (r.remainingBudget / (max 1 (((r.slots.filter (fun s => s.player.isNone)).length : ℚ))))
  rcases otb with _ | teams
  · dsimp only
    split_ifs <;> omega
  · have h2 := budgetFallback_bounds teams
      (r.remainingBudget / (max 1 (((r.slots.filter (fun s => s.player.isNone)).length : ℚ))))
    dsimp only
    split_ifs <;> omega

/-- Claim C5: for every player, current bid, and draft state, each of the
five sub-scores is individually within its cap: rosterFit in [0,25],
remainingPlayersValue in [0,20], budgetSituation in [0,20], valueEfficiency
in [0,20], and puntStrategy in [0,15]. -/
theorem subscores_within_caps (p : Player) (bid : ℚ) (ds : DraftState) :
    (0 ≤ calculateRosterFitScore p ds.myRoster ds
      ∧ calculateRosterFitScore p ds.myRoster ds ≤ 25)
    ∧ (0 ≤ calculateRemainingPlayersScore p ds.playersRemaining
      ∧ calculateRemainingPlayersScore p ds.playersRemaining ≤ 20)
    ∧ (0 ≤ calculateBudgetScore p bid ds.myRoster ds.otherTeamsBudgets ds.allTeams
      ∧ calculateBudgetScore p bid ds.myRoster ds.otherTeamsBudgets ds.allTeams ≤ 20)
    ∧ (0 ≤ calculateValueEfficiencyScore p bid ds.draftPhase
      ∧ calculateValueEfficiencyScore p bid ds.draftPhase ≤ 20)
    ∧ (0 ≤ calculatePuntStrategyScore p ds.myRoster ds.selectedStrategy ds.rosterAnalysis
      ∧ calculatePuntStrategyScore p ds.myRoster ds.selectedStrategy ds.rosterAnalysis ≤ 15) :=
  ⟨rosterFit_bounds p ds.myRoster ds,
   remainingPlayers_bounds p ds.playersRemaining,
   budgetScore_bounds p bid ds.myRoster ds.otherTeamsBudgets ds.allTeams,
   valueEfficiency_bounds p bid ds.draftPhase,
   puntStrategy_bounds p ds.myRoster ds.selectedStrategy ds.rosterAnalysis⟩

theorem strengthWeakNeStrong : (Strength.weak = Strength.strong) = False := by simp

theorem strengthWeakEqWeak : (Strength.weak = Strength.weak) = True := by simp

theorem mem_insertSorted (le : α → α → Bool) (x a : α) (l : List α) :
    a ∈ insertSorted le x l ↔ a = x ∨ a ∈ l := by
  induction l with
  | nil => simp [insertSorted]
  | cons y ys ih =>
    simp only [insertSorted]
    split_ifs
    · simp [or_comm, or_left_comm]
    · simp [ih, or_comm, or_left_comm]

theorem mem_sortListBy (le : α → α → Bool) (a : α) (l : List α) :
    a ∈ sortListBy le l ↔ a ∈ l := by
  induction l with
  | nil => simp [sortListBy]
  | cons y ys ih =>
    simp only [sortListBy, List.foldr_cons] at *
    rw [mem_insertSorted, ih]
    simp

theorem clearFirstSlot_fresh (slots : List RosterSlot) (pid : String)
    (h : ∀ s ∈ slots, ∀ q, s.player = some q → ¬(q.player.id = pid)) :
    clearFirstSlot slots pid = (slots, false) := by
  induction slots with
  | nil => rfl
  | cons s rest ih =>
    have hrest := fun t ht => h t (List.mem_cons_of_mem s ht)
    simp only [clearFirstSlot]
    cases hp : s.player with
    | some q =>
      dsimp only
      rw [if_neg (h s (List.mem_cons_self s rest) q hp)]
      simp [ih hrest]
    | none => simp [ih hrest]

theorem clear_assign_roundtrip (slots : List RosterSlot) (p : Player) (dp : DraftedPlayer)
    (hid : dp.player.id = p.id)
    (h : ∀ s ∈ slots, ∀ q, s.player = some q → ¬(q.player.id = p.id)) :
    clearFirstSlot (assignFirstSlot slots p dp).1 p.id
      = (slots, (assignFirstSlot slots p dp).2) := by
  induction slots with
  | nil => rfl
  | cons s rest ih =>
    have hrest := fun t ht => h t (List.mem_cons_of_mem s ht)
    simp only [assignFirstSlot]
    split_ifs with he
    · -- eligible: the slot was empty, receives dp, and clearing restores it
      have hnone : s.player = none := by
        rcases hp : s.player with _ | q
        · rfl
        · unfold slotEligibleFor at he
          rw [hp] at he
          simp at he
      have hs : ({ s with player := none } : RosterSlot) = s := by
        cases s
        simp_all
      simp only [clearFirstSlot, hid]
      simp [hs]
    · -- not eligible: head unchanged, recurse
      simp only [clearFirstSlot]
      cases hp : s.player with
      | some q =>
        dsimp only
        rw [if_neg (h s (List.mem_cons_self s rest) q hp)]
        simp [ih hrest]
      | none => simp [ih hrest]

theorem undo_update_team (t : TeamInfo) (dp : DraftedPlayer)
    (h : ∀ q ∈ t.playersOwned, ¬(q.player.id = dp.player.id)) :
    (undoTeamDraft (updateTeamAfterDraft t dp) dp).playersOwned = t.playersOwned
    ∧ (undoTeamDraft (updateTeamAfterDraft t dp) dp).remainingBudget = t.remainingBudget
    ∧ (undoTeamDraft (updateTeamAfterDraft t dp) dp).totalSpent = t.totalSpent
    ∧ (undoTeamDraft (updateTeamAfterDraft t dp) dp).slotsRemaining = t.slotsRemaining := by
  have howned : (t.playersOwned ++ [dp]).filter
      (fun p => decide (¬(p.player.id = dp.player.id))) = t.playersOwned := by
    rw [List.filter_append]
    have h1 : t.playersOwned.filter (fun p => decide (¬(p.player.id = dp.player.id)))
        = t.playersOwned :=
      List.filter_eq_self.mpr (fun q hq => decide_eq_true (h q hq))
    have h2 : ([dp].filter (fun p => decide (¬(p.player.id = dp.player.id)))) = [] := by
      simp
    rw [h1, h2, List.append_nil]
  simp only [undoTeamDraft, updateTeamAfterDraft, howned]
  refine ⟨by simp, by ring, by ring, by ring⟩

theorem forall2_map_of_forall {α : Type _} (R : α → α → Prop) (f : α → α) (l : List α)
    (h : ∀ x ∈ l, R (f x) x) : List.Forall₂ R (l.map f) l := by
  induction l with
  | nil => simp
  | cons x xs ih =>
    simp only [List.map_cons]
    exact List.Forall₂.cons (h x (List.mem_cons_self x xs))
      (ih (fun y hy => h y (List.mem_cons_of_mem x hy)))

theorem scoreBandMaxBid_le (s : ℤ) (v m : ℚ) : scoreBandMaxBid s v m ≤ m := by
  simp only [scoreBandMaxBid]
  split_ifs <;> exact min_le_right _ _

theorem biddingRec_normal_score (p : Player) (bid : ℚ) (ds : DraftState)
    (h : ¬(bid ≥ reservationCutoff ds)) :
    (getBiddingRecommendation p bid ds).scoreBreakdown =
      ⟨calculateRosterFitScore p ds.myRoster ds,
       calculateRemainingPlayersScore p ds.playersRemaining,
       calculateBudgetScore p bid ds.myRoster ds.otherTeamsBudgets ds.allTeams,
       calculateValueEfficiencyScore p bid ds.draftPhase,
       calculatePuntStrategyScore p ds.myRoster ds.selectedStrategy ds.rosterAnalysis⟩
    ∧ (getBiddingRecommendation p bid ds).biddingScore =
      min 100 (calculateRosterFitScore p ds.myRoster ds
        + calculateRemainingPlayersScore p ds.playersRemaining
        + calculateBudgetScore p bid ds.myRoster ds.otherTeamsBudgets ds.allTeams
        + calculateValueEfficiencyScore p bid ds.draftPhase
        + calculatePuntStrategyScore p ds.myRoster ds.selectedStrategy ds.rosterAnalysis
        + (if analyzeNominationTiming p ds.playersDrafted then 5 else 0)) := by
  unfold reservationCutoff at h
  simp only [getBiddingRecommendation, calculateGranularBiddingScore]
  rw [if_neg h]
  exact ⟨rfl, rfl⟩

theorem rosterTwoFilled_needs : getRosterNeeds rosterTwoFilled = ⟨2, 1, 2, 1, 0, 5⟩ := by
  norm_num [getRosterNeeds, rosterTwoFilled, rosterNeedsStep, centerFill1, centerFill2]

theorem rosterTwoFilled_empty :
    (rosterTwoFilled.slots.filter (fun s => s.player.isNone)).length = 11 := by
  norm_num [rosterTwoFilled, centerFill1, centerFill2]

theorem rosterTwoFilled_filled :
    (rosterTwoFilled.slots.filter (fun s => s.player.isSome)).length = 2 := by
  norm_num [rosterTwoFilled, centerFill1, centerFill2]

set_option maxHeartbeats 1000000 in
theorem rosterFit_scoreCap (ds : DraftState) :
    calculateRosterFitScore scoreCapPlayer rosterTwoFilled ds = 25 := by
  rw [calculateRosterFitScore, rosterTwoFilled_needs, rosterTwoFilled_empty,
    rosterTwoFilled_filled]
  norm_num [scoreCapPlayer, RosterNeeds.get, impactFiveUp, CategoryImpact.toList]

theorem remaining_scoreCap : calculateRemainingPlayersScore scoreCapPlayer [] = 20 := by
  norm_num [calculateRemainingPlayersScore, scoreCapPlayer]

set_option maxHeartbeats 1000000 in
theorem punt_scoreCap :
    calculatePuntStrategyScore scoreCapPlayer rosterTwoFilled .balanced raAllWeak = 15 := by
  rw [calculatePuntStrategyScore, rosterTwoFilled_filled]
  norm_num [scoreCapPlayer, impactFiveUp, CategoryImpact.toList, calculateStrategyFit,
    raAllWeak, needsAllWeak, CatNeeds.zipImpact, impactZero, strengthWeakNeStrong,
    strengthWeakEqWeak]

set_option maxHeartbeats 1000000 in
theorem budget_scoreCap :
    calculateBudgetScore scoreCapPlayer 0 rosterTwoFilled none [eyalTeam, brokeTeam] = 20 := by
  rw [calculateBudgetScore, rosterTwoFilled_empty]
  norm_num [scoreCapPlayer, rosterTwoFilled, analyzeCompetitiveInterest, eyalTeam,
    brokeTeam, budgetCompetitiveScore, calculateTeamPositionNeeds, posNeedsInit,
    PosNeeds.get]

theorem valueEff_scoreCap : calculateValueEfficiencyScore scoreCapPlayer 0 .early = 20 := by
  norm_num [calculateValueEfficiencyScore, scoreCapPlayer]

theorem timing_scoreCap : analyzeNominationTiming scoreCapPlayer [draftedTier3] = true := by
  norm_num [analyzeNominationTiming, scoreCapPlayer, draftedTier3]

theorem scoreCapState_not_cutoff : ¬((0 : ℚ) ≥ reservationCutoff scoreCapState) := by
  rw [reservationCutoff]
  have h : scoreCapState.myRoster = rosterTwoFilled := rfl
  rw [h, rosterTwoFilled_empty]
  norm_num [scoreCapState, rosterTwoFilled]

/-- Claim C1: if the current bid reaches the affordability cutoff
`remainingBudget - max(1, emptySlots - 1)`, the recommendation is the
fail-fast one: no bid, maxBid 0, biddingScore 0, all five sub-scores 0,
and high confidence. -/
theorem failfast_zeroes_recommendation (p : Player) (bid : ℚ) (ds : DraftState)
    (h : bid ≥ reservationCutoff ds) :
    (getBiddingRecommendation p bid ds).shouldBid = false
    ∧ (getBiddingRecommendation p bid ds).maxBid = 0
    ∧ (getBiddingRecommendation p bid ds).biddingScore = 0
    ∧ (getBiddingRecommendation p bid ds).scoreBreakdown = ⟨0, 0, 0, 0, 0⟩
    ∧ (getBiddingRecommendation p bid ds).confidence = .high := by
  unfold reservationCutoff at h
  simp only [getBiddingRecommendation]
  rw [if_pos h]
  exact ⟨rfl, rfl, rfl, rfl, rfl⟩

/-- Witness for C1: at the tight-budget state ($10 left, 11 empty slots)
the cutoff fires for a $0 bid and the fail-fast fields are returned. -/
theorem failfast_zeroes_recommendation_witness :
    (getBiddingRecommendation scoreCapPlayer 0 failFastState).shouldBid = false
    ∧ (getBiddingRecommendation scoreCapPlayer 0 failFastState).maxBid = 0
    ∧ (getBiddingRecommendation scoreCapPlayer 0 failFastState).biddingScore = 0
    ∧ (getBiddingRecommendation scoreCapPlayer 0 failFastState).scoreBreakdown = ⟨0, 0, 0, 0, 0⟩
    ∧ (getBiddingRecommendation scoreCapPlayer 0 failFastState).confidence = .high :=
  failfast_zeroes_recommendation scoreCapPlayer 0 failFastState (by
    rw [reservationCutoff]
    have h : failFastState.myRoster.slots = rosterTwoFilled.slots := rfl
    rw [h, rosterTwoFilled_empty]
    norm_num [failFastState, rosterTwoFilled])

/-- Claim C3: in both branches the returned maxBid never exceeds
`max(0, remainingBudget - max(1, emptySlots - 1))`, so the operator can
always complete a legal roster. -/
theorem maxBid_within_reservation (p : Player) (bid : ℚ) (ds : DraftState) :
    (getBiddingRecommendation p bid ds).maxBid ≤ max 0 (reservationCutoff ds) := by
  simp only [getBiddingRecommendation]
  by_cases hc : bid ≥ ds.myRoster.remainingBudget
    - ((max 1 (((ds.myRoster.slots.filter (fun s => s.player.isNone)).length : ℤ) - 1) : ℤ) : ℚ)
  · rw [if_pos hc]
    exact le_max_left 0 _
  · rw [if_neg hc]
    simp only [reservationCutoff]
    exact max_le_max le_rfl (le_trans (min_le_left _ _) (scoreBandMaxBid_le _ _ _))

/-- Claim C2 (amended): outside the fail-fast branch the reported
biddingScore equals `min 100` of the sum of the five sub-scores plus the
+5 timing bonus, and the raw sub-scores are preserved in scoreBreakdown;
the 100-cap is applied to the reported score itself, not only to the
bid-multiplier lookup. -/
theorem biddingScore_equals_capped_sum (p : Player) (bid : ℚ) (ds : DraftState)
    (h : ¬(bid ≥ reservationCutoff ds)) :
    (getBiddingRecommendation p bid ds).scoreBreakdown =
      ⟨calculateRosterFitScore p ds.myRoster ds,
       calculateRemainingPlayersScore p ds.playersRemaining,
       calculateBudgetScore p bid ds.myRoster ds.otherTeamsBudgets ds.allTeams,
       calculateValueEfficiencyScore p bid ds.draftPhase,
       calculatePuntStrategyScore p ds.myRoster ds.selectedStrategy ds.rosterAnalysis⟩
    ∧ (getBiddingRecommendation p bid ds).biddingScore =
      min 100 (calculateRosterFitScore p ds.myRoster ds
        + calculateRemainingPlayersScore p ds.playersRemaining
        + calculateBudgetScore p bid ds.myRoster ds.otherTeamsBudgets ds.allTeams
        + calculateValueEfficiencyScore p bid ds.draftPhase
        + calculatePuntStrategyScore p ds.myRoster ds.selectedStrategy ds.rosterAnalysis
        + (if analyzeNominationTiming p ds.playersDrafted then 5 else 0)) :=
  biddingRec_normal_score p bid ds h

/-- Witness for the amended C2 at the score-cap state. -/
theorem biddingScore_equals_capped_sum_witness :
    (getBiddingRecommendation scoreCapPlayer 0 scoreCapState).scoreBreakdown =
      ⟨calculateRosterFitScore scoreCapPlayer scoreCapState.myRoster scoreCapState,
       calculateRemainingPlayersScore scoreCapPlayer scoreCapState.playersRemaining,
       calculateBudgetScore scoreCapPlayer 0 scoreCapState.myRoster
         scoreCapState.otherTeamsBudgets scoreCapState.allTeams,
       calculateValueEfficiencyScore scoreCapPlayer 0 scoreCapState.draftPhase,
       calculatePuntStrategyScore scoreCapPlayer scoreCapState.myRoster
         scoreCapState.selectedStrategy scoreCapState.rosterAnalysis⟩
    ∧ (getBiddingRecommendation scoreCapPlayer 0 scoreCapState).biddingScore =
      min 100 (calculateRosterFitScore scoreCapPlayer scoreCapState.myRoster scoreCapState
        + calculateRemainingPlayersScore scoreCapPlayer scoreCapState.playersRemaining
        + calculateBudgetScore scoreCapPlayer 0 scoreCapState.myRoster
            scoreCapState.otherTeamsBudgets scoreCapState.allTeams
        + calculateValueEfficiencyScore scoreCapPlayer 0 scoreCapState.draftPhase
        + calculatePuntStrategyScore scoreCapPlayer scoreCapState.myRoster
            scoreCapState.selectedStrategy scoreCapState.rosterAnalysis
        + (if analyzeNominationTiming scoreCapPlayer scoreCapState.playersDrafted
            then 5 else 0)) :=
  biddingScore_equals_capped_sum scoreCapPlayer 0 scoreCapState scoreCapState_not_cutoff

/-- Counterexample to C2 as stated: at the score-cap state the five
sub-scores plus the timing bonus total 105, yet the reported biddingScore
is the clamped 100, so values above 100 are NOT preserved in the result. -/
theorem biddingScore_above_100_clamped_cex :
    (getBiddingRecommendation scoreCapPlayer 0 scoreCapState).biddingScore = 100
    ∧ (getBiddingRecommendation scoreCapPlayer 0 scoreCapState).scoreBreakdown.rosterFit
      + (getBiddingRecommendation scoreCapPlayer 0 scoreCapState).scoreBreakdown.remainingPlayersValue
      + (getBiddingRecommendation scoreCapPlayer 0 scoreCapState).scoreBreakdown.budgetSituation
      + (getBiddingRecommendation scoreCapPlayer 0 scoreCapState).scoreBreakdown.valueEfficiency
      + (getBiddingRecommendation scoreCapPlayer 0 scoreCapState).scoreBreakdown.puntStrategy
      + 5 = 105
    ∧ analyzeNominationTiming scoreCapPlayer scoreCapState.playersDrafted = true := by
  obtain ⟨hb, hs⟩ := biddingRec_normal_score scoreCapPlayer 0 scoreCapState
    scoreCapState_not_cutoff
  have h1 : calculateRosterFitScore scoreCapPlayer scoreCapState.myRoster scoreCapState = 25 :=
    rosterFit_scoreCap scoreCapState
  have h2 : calculateRemainingPlayersScore scoreCapPlayer scoreCapState.playersRemaining = 20 :=
    remaining_scoreCap
  have h3 : calculateBudgetScore scoreCapPlayer 0 scoreCapState.myRoster
      scoreCapState.otherTeamsBudgets scoreCapState.allTeams = 20 := budget_scoreCap
  have h4 : calculateValueEfficiencyScore scoreCapPlayer 0 scoreCapState.draftPhase = 20 :=
    valueEff_scoreCap
  have h5 : calculatePuntStrategyScore scoreCapPlayer scoreCapState.myRoster
      scoreCapState.selectedStrategy scoreCapState.rosterAnalysis = 15 := punt_scoreCap
  have h6 : analyzeNominationTiming scoreCapPlayer scoreCapState.playersDrafted = true :=
    timing_scoreCap
  refine ⟨?_, ?_, h6⟩
  · rw [hs, h1, h2, h3, h4, h5, h6]
    norm_num
  · rw [hb]
    simp only [h1, h2, h3, h4, h5]
    norm_num

/-- Claim C4: drafting a player then immediately undoing the pick restores
the operator roster (budget, spend, and every slot), every team's
playersOwned, budget, spend and open-slot fields, the drafted list, and
puts the player back into the remaining pool. Hypotheses: the player is in
the pool under its id, and that id does not already occur on the operator
roster or in any team's owned list. -/
theorem draft_then_undo_restores (core : DraftCore) (pid : String) (bid : ℚ) (w : String)
    (p : Player)
    (hfind : core.playersRemaining.find? (fun q => decide (q.id = pid)) = some p)
    (hroster : ∀ s ∈ core.myRoster.slots, ∀ q, s.player = some q → ¬(q.player.id = pid))
    (hteams : ∀ t ∈ core.allTeams, ∀ q ∈ t.playersOwned, ¬(q.player.id = pid)) :
    (handleUndoLastPick (handleDraftPlayer core pid bid w)).myRoster = core.myRoster
    ∧ List.Forall₂ teamFieldsRestored
        (handleUndoLastPick (handleDraftPlayer core pid bid w)).allTeams core.allTeams
    ∧ p ∈ (handleUndoLastPick (handleDraftPlayer core pid bid w)).playersRemaining
    ∧ (handleUndoLastPick (handleDraftPlayer core pid bid w)).playersDrafted
        = core.playersDrafted := by
  have hpid : p.id = pid := by
    have h1 := List.find?_some hfind
    simpa using h1
  have hrosterP : ∀ s ∈ core.myRoster.slots, ∀ q, s.player = some q → ¬(q.player.id = p.id) := by
    intro s hs q hq
    rw [hpid]
    exact hroster s hs q hq
  have hteamsP : ∀ t ∈ core.allTeams, ∀ q ∈ t.playersOwned, ¬(q.player.id = p.id) := by
    intro t ht q hq
    rw [hpid]
    exact hteams t ht q hq
  have hteamsR : List.Forall₂ teamFieldsRestored
      ((core.allTeams.map (fun team => if team.teamName = w
          then updateTeamAfterDraft team ⟨p, w, bid, (core.playersDrafted.length : ℤ) + 1⟩
          else team)).map (fun team => if team.teamName = w
          then undoTeamDraft team ⟨p, w, bid, (core.playersDrafted.length : ℤ) + 1⟩
          else team)) core.allTeams := by
    rw [List.map_map]
    apply forall2_map_of_forall
    intro t ht
    by_cases hn : t.teamName = w
    · have hupd : (updateTeamAfterDraft t
          ⟨p, w, bid, (core.playersDrafted.length : ℤ) + 1⟩).teamName = t.teamName := rfl
      simp only [Function.comp_apply, if_pos hn, hupd]
      exact undo_update_team t _ (hteamsP t ht)
    · simp only [Function.comp_apply, if_neg hn]
      exact ⟨rfl, rfl, rfl, rfl⟩
  simp only [handleDraftPlayer, hfind]
  by_cases hw : w = "Eyal"
  · rw [if_pos hw]
    by_cases hassign : (assignFirstSlot core.myRoster.slots p
        ⟨p, w, bid, (core.playersDrafted.length : ℤ) + 1⟩).2 = true
    · rw [if_pos hassign]
      simp only [handleUndoLastPick, List.getLast?_concat]
      dsimp only
      rw [if_pos hw]
      rw [clear_assign_roundtrip core.myRoster.slots p _ rfl hrosterP, hassign]
      simp only [if_pos rfl, List.dropLast_concat]
      refine ⟨?_, hteamsR, ?_, by simp⟩
      · cases core.myRoster
        simp only [MyRoster.mk.injEq]
        norm_num
      · simp only [sortByValueDesc]
        rw [mem_sortListBy]
        simp
    · -- no eligible slot: the roster is untouched by both transitions
      rw [if_neg hassign]
      simp only [handleUndoLastPick, List.getLast?_concat]
      dsimp only
      rw [if_pos hw]
      rw [clearFirstSlot_fresh core.myRoster.slots p.id hrosterP]
      simp only [List.dropLast_concat]
      refine ⟨rfl, hteamsR, ?_, by simp⟩
      simp only [sortByValueDesc]
      rw [mem_sortListBy]
      simp
  · -- a competing team wins: the roster is untouched by both transitions
    rw [if_neg hw]
    simp only [handleUndoLastPick, List.getLast?_concat]
    dsimp only
    rw [if_neg hw]
    refine ⟨rfl, hteamsR, ?_, by simp⟩
    simp only [sortByValueDesc]
    rw [mem_sortListBy]
    simp

/-- Witness for C4: drafting the lone point guard to Eyal for $7 in the
one-slot core and undoing restores everything. -/
theorem draft_then_undo_restores_witness :
    (handleUndoLastPick (handleDraftPlayer roundTripCore "w4" 7 "Eyal")).myRoster
        = roundTripCore.myRoster
    ∧ List.Forall₂ teamFieldsRestored
        (handleUndoLastPick (handleDraftPlayer roundTripCore "w4" 7 "Eyal")).allTeams
        roundTripCore.allTeams
    ∧ roundTripPlayer
        ∈ (handleUndoLastPick (handleDraftPlayer roundTripCore "w4" 7 "Eyal")).playersRemaining
    ∧ (handleUndoLastPick (handleDraftPlayer roundTripCore "w4" 7 "Eyal")).playersDrafted
        = roundTripCore.playersDrafted :=
  draft_then_undo_restores roundTripCore "w4" 7 "Eyal" roundTripPlayer
    (by simp [roundTripCore, roundTripPlayer, List.find?])
    (by simp [roundTripCore])
    (by simp [roundTripCore, eyalTeam])

theorem assignFirstSlot_snd (slots : List RosterSlot) (p : Player) (dp : DraftedPlayer) :
    (assignFirstSlot slots p dp).2 = slots.any (slotEligibleFor p) := by
  induction slots with
  | nil => rfl
  | cons s rest ih =>
    simp only [assignFirstSlot, List.any_cons]
    split_ifs with he <;> simp [he, ih]

/-- Claim C10: when Eyal wins a player with no eligible empty slot, the
roster (slots and both budget fields) is silently left unchanged while the
player is still removed from the pool, appended to the drafted list, and
the Eyal TeamInfo is charged the full price. -/
theorem silent_slot_drop_divergence (core : DraftCore) (pid : String) (bid : ℚ)
    (p : Player)
    (hfind : core.playersRemaining.find? (fun q => decide (q.id = pid)) = some p)
    (hnoslot : core.myRoster.slots.any (slotEligibleFor p) = false) :
    (handleDraftPlayer core pid bid "Eyal").myRoster = core.myRoster
    ∧ (handleDraftPlayer core pid bid "Eyal").playersRemaining
        = core.playersRemaining.filter (fun q => decide (¬(q.id = pid)))
    ∧ (handleDraftPlayer core pid bid "Eyal").playersDrafted
        = core.playersDrafted ++ [⟨p, "Eyal", bid, (core.playersDrafted.length : ℤ) + 1⟩]
    ∧ (handleDraftPlayer core pid bid "Eyal").allTeams
        = core.allTeams.map (fun team => if team.teamName = "Eyal"
            then updateTeamAfterDraft team ⟨p, "Eyal", bid, (core.playersDrafted.length : ℤ) + 1⟩
            else team)
    ∧ (∀ t : TeamInfo, t.teamName = "Eyal" →
        (updateTeamAfterDraft t
            ⟨p, "Eyal", bid, (core.playersDrafted.length : ℤ) + 1⟩).totalSpent
          = t.totalSpent + bid
        ∧ (updateTeamAfterDraft t
            ⟨p, "Eyal", bid, (core.playersDrafted.length : ℤ) + 1⟩).remainingBudget
          = t.remainingBudget - bid
        ∧ (updateTeamAfterDraft t
            ⟨p, "Eyal", bid, (core.playersDrafted.length : ℤ) + 1⟩).playersOwned
          = t.playersOwned ++ [⟨p, "Eyal", bid, (core.playersDrafted.length : ℤ) + 1⟩]) := by
  have hflag : (assignFirstSlot core.myRoster.slots p
      ⟨p, "Eyal", bid, (core.playersDrafted.length : ℤ) + 1⟩).2 = false := by
    rw [assignFirstSlot_snd]
    exact hnoslot
  simp only [handleDraftPlayer, hfind]
  rw [hflag]
  simp only [if_true, Bool.false_eq_true, if_false]
  refine ⟨by trivial, by trivial, by trivial, by trivial, ?_⟩
  intro t ht
  exact ⟨rfl, rfl, rfl⟩

/-- Witness for C10: the center-slot-only core cannot place a pure point
guard, yet the pool, drafted list and Eyal's team ledger all move. -/
theorem silent_slot_drop_divergence_witness :
    (handleDraftPlayer noSlotCore "w4" 7 "Eyal").myRoster = noSlotCore.myRoster
    ∧ (handleDraftPlayer noSlotCore "w4" 7 "Eyal").playersRemaining
        = noSlotCore.playersRemaining.filter (fun q => decide (¬(q.id = "w4")))
    ∧ (handleDraftPlayer noSlotCore "w4" 7 "Eyal").playersDrafted
        = noSlotCore.playersDrafted
            ++ [⟨roundTripPlayer, "Eyal", 7, (noSlotCore.playersDrafted.length : ℤ) + 1⟩]
    ∧ (handleDraftPlayer noSlotCore "w4" 7 "Eyal").allTeams
        = noSlotCore.allTeams.map (fun team => if team.teamName = "Eyal"
            then updateTeamAfterDraft team
              ⟨roundTripPlayer, "Eyal", 7, (noSlotCore.playersDrafted.length : ℤ) + 1⟩
            else team)
    ∧ (∀ t : TeamInfo, t.teamName = "Eyal" →
        (updateTeamAfterDraft t
            ⟨roundTripPlayer, "Eyal", 7, (noSlotCore.playersDrafted.length : ℤ) + 1⟩).totalSpent
          = t.totalSpent + 7
        ∧ (updateTeamAfterDraft t
            ⟨roundTripPlayer, "Eyal", 7, (noSlotCore.playersDrafted.length : ℤ) + 1⟩).remainingBudget
          = t.remainingBudget - 7
        ∧ (updateTeamAfterDraft t
            ⟨roundTripPlayer, "Eyal", 7, (noSlotCore.playersDrafted.length : ℤ) + 1⟩).playersOwned
          = t.playersOwned
              ++ [⟨roundTripPlayer, "Eyal", 7, (noSlotCore.playersDrafted.length : ℤ) + 1⟩]) :=
  silent_slot_drop_divergence noSlotCore "w4" 7 roundTripPlayer
    (by simp [noSlotCore, roundTripPlayer, List.find?])
    (by simp [noSlotCore, slotEligibleFor, roundTripPlayer])

/-- Counterexample to C6 as stated: the team owning one $0 player reaches
the `tierPreferences` division with a zero total spend and no guard, so the
computed ratio is not finite (JS NaN). -/
theorem tierPreference_unguarded_cex : (tierPreferenceD zeroCostTeam 1).isSome = false := by
  simp [tierPreferenceD, zeroCostTeam, qdiv?, totalSpendingOf, positionSpendingOf,
    tierSpendingOf, impactZero]

/-- Claim C6 (amended): the budget-per-slot ratios carry an explicit
zero-branch and are always defined, but tierPreferences,
competitionIntensity and the competitors' average budget per slot are
unguarded and defined only when their denominators (total position spend,
competitor count, competitors' total open slots) are nonzero. -/
theorem ratio_guards_amended (team : TeamInfo) (p : Player) (allTeams : List TeamInfo)
    (tier : ℤ) :
    (budgetPerSlotD team).isSome = true
    ∧ (totalSpendingOf team.playersOwned ≠ 0 → (tierPreferenceD team tier).isSome = true)
    ∧ ((allTeams.filter (fun t => !t.isMyTeam)).length ≠ 0 →
        (competitionIntensityD p allTeams).isSome = true)
    ∧ (((allTeams.filter (fun t => !t.isMyTeam)).map (fun t => t.slotsRemaining)).sum ≠ 0 →
        (interestAvgBudgetPerSlotD allTeams).isSome = true) := by
  refine ⟨?_, ?_, ?_, ?_⟩
  · simp only [budgetPerSlotD, qdiv?]
    split_ifs with h1 h2
    · exfalso
      have : (team.slotsRemaining : ℚ) ≠ 0 := by
        exact_mod_cast ne_of_gt h1
      exact this h2
    · simp
    · simp
  · intro h
    simp only [tierPreferenceD, qdiv?]
    split_ifs <;> simp_all
  · intro h
    simp only [competitionIntensityD, qdiv?]
    split_ifs with h1
    · exfalso
      have h2 : ((allTeams.filter (fun t => !t.isMyTeam)).length : ℚ) ≠ 0 := by
        exact_mod_cast h
      exact h2 h1
    · simp
  · intro h
    simp only [interestAvgBudgetPerSlotD, qdiv?]
    split_ifs with h1 h2
    · simp
    · exfalso
      have h3 : ((((allTeams.filter (fun t => !t.isMyTeam)).map
          (fun t => t.slotsRemaining)).sum : ℤ) : ℚ) ≠ 0 := by
        exact_mod_cast h
      exact h3 h2
    · simp

/-- Witness for the amended C6 at concrete teams: the broke competitor's
pressure ratio is defined, and the unguarded ratios are defined once their
denominators are nonzero. -/
theorem ratio_guards_amended_witness :
    (budgetPerSlotD brokeTeam).isSome = true
    ∧ (tierPreferenceD oneOwnedTeam 3).isSome = true
    ∧ (competitionIntensityD roundTripPlayer [eyalTeam, brokeTeam]).isSome = true
    ∧ (interestAvgBudgetPerSlotD [eyalTeam, brokeTeam]).isSome = true := by
  obtain ⟨h1, h2, h3, h4⟩ := ratio_guards_amended oneOwnedTeam roundTripPlayer
    [eyalTeam, brokeTeam] 3
  refine ⟨(ratio_guards_amended brokeTeam roundTripPlayer [] 3).1, ?_, ?_, ?_⟩
  · exact h2 (by
      simp [oneOwnedTeam, totalSpendingOf, positionSpendingOf])
  · exact h3 (by norm_num [eyalTeam, brokeTeam])
  · exact h4 (by norm_num [eyalTeam, brokeTeam])

/-- Counterexample to C7 as stated: for punt_to, a player with turnovers
impact below −0.5 gets fit 0.3 while one above 0.5 gets 0.9 — the strict
inequality the claim asserts fails (the code rewards the opposite
direction, per its own comment about prioritizing low-turnover players). -/
theorem punt_to_direction_cex :
    puntToLowPlayer.categoryStrengths.turnovers < -0.5
    ∧ puntToHighPlayer.categoryStrengths.turnovers > 0.5
    ∧ calculateStrategyFit puntToLowPlayer .punt_to raAllWeak = 0.3
    ∧ calculateStrategyFit puntToHighPlayer .punt_to raAllWeak = 0.9
    ∧ ¬(calculateStrategyFit puntToLowPlayer .punt_to raAllWeak
        > calculateStrategyFit puntToHighPlayer .punt_to raAllWeak) := by
  norm_num [calculateStrategyFit, puntToLowPlayer, puntToHighPlayer]

/-- Claim C7 (amended): punt_ft, punt_fg and punt_assists reward strongly
negative impact in the punted category over excelling in it (thresholds
0.5, 0.5 and 1.0); for punt_to the direction is reversed: positive
turnovers impact above 0.5 beats impact below −0.5. -/
theorem punt_fit_directions (a b : Player) (ra : RosterAnalysis) :
    (a.categoryStrengths.ft_pct < -0.5 → b.categoryStrengths.ft_pct > 0.5 →
      calculateStrategyFit b .punt_ft ra < calculateStrategyFit a .punt_ft ra)
    ∧ (a.categoryStrengths.fg_pct < -0.5 → b.categoryStrengths.fg_pct > 0.5 →
      calculateStrategyFit b .punt_fg ra < calculateStrategyFit a .punt_fg ra)
    ∧ (a.categoryStrengths.assists < -0.5 → b.categoryStrengths.assists > 1.0 →
      calculateStrategyFit b .punt_assists ra < calculateStrategyFit a .punt_assists ra)
    ∧ (a.categoryStrengths.turnovers > 0.5 → b.categoryStrengths.turnovers < -0.5 →
      calculateStrategyFit b .punt_to ra < calculateStrategyFit a .punt_to ra) := by
  refine ⟨?_, ?_, ?_, ?_⟩ <;>
    · intro ha hb
      simp only [calculateStrategyFit]
      split_ifs <;> linarith

/-- Witness for the amended C7 at the two concrete turnover profiles. -/
theorem punt_fit_directions_witness :
    calculateStrategyFit puntToLowPlayer .punt_to raAllWeak
      < calculateStrategyFit puntToHighPlayer .punt_to raAllWeak :=
  (punt_fit_directions puntToHighPlayer puntToLowPlayer raAllWeak).2.2.2
    (by norm_num [puntToHighPlayer]) (by norm_num [puntToLowPlayer])

/-- Claim C8: both analyzeBudgetPressure implementations are monotone in
the remaining budget: decreasing it (all other fields fixed) never
decreases the severity of the pressure level. -/
theorem budgetPressure_monotone (t : TeamInfo) (b1 b2 : ℚ) (h : b2 ≤ b1) :
    ((analyzeBudgetPressure { t with remainingBudget := b1 }).pressureLevel).severity
      ≤ ((analyzeBudgetPressure { t with remainingBudget := b2 }).pressureLevel).severity
    ∧ ((analyzeBudgetPressureB { t with remainingBudget := b1 }).pressureLevel).severity
      ≤ ((analyzeBudgetPressureB { t with remainingBudget := b2 }).pressureLevel).severity := by
  constructor
  · simp only [analyzeBudgetPressure]
    by_cases hs : t.slotsRemaining > 0
    · have havg : b2 / (t.slotsRemaining : ℚ) ≤ b1 / (t.slotsRemaining : ℚ) := by
        apply div_le_div_of_nonneg_right h
        exact_mod_cast hs.le
      simp only [if_pos hs]
      split_ifs <;> simp_all [PressureLevel.severity] <;> (try casesm* _ ∨ _) <;> linarith
    · simp only [if_neg hs]
      split_ifs <;> simp_all [PressureLevel.severity]
  · simp only [analyzeBudgetPressureB]
    by_cases hs : t.slotsRemaining > 0
    · have havg : b2 / (t.slotsRemaining : ℚ) ≤ b1 / (t.slotsRemaining : ℚ) := by
        apply div_le_div_of_nonneg_right h
        exact_mod_cast hs.le
      simp only [if_pos hs]
      split_ifs <;> simp_all [PressureLevel.severity] <;> linarith
    · simp only [if_neg hs]
      split_ifs <;> simp_all [PressureLevel.severity]

/-- Witness for C8: dropping the one-owned team's budget from $190 to $50
never lowers the pressure severity, in either implementation. -/
theorem budgetPressure_monotone_witness :
    ((analyzeBudgetPressure { oneOwnedTeam with remainingBudget := 190 }).pressureLevel).severity
      ≤ ((analyzeBudgetPressure { oneOwnedTeam with remainingBudget := 50 }).pressureLevel).severity
    ∧ ((analyzeBudgetPressureB { oneOwnedTeam with remainingBudget := 190 }).pressureLevel).severity
      ≤ ((analyzeBudgetPressureB { oneOwnedTeam with remainingBudget := 50 }).pressureLevel).severity :=
  budgetPressure_monotone oneOwnedTeam 190 50 (by norm_num)

/-- Claim C9: a team with fewer than two drafted players gets the neutral
default opponent model from both detectOpponentStrategy implementations:
strategy 'unknown' with confidence 0. -/
theorem insufficient_history_neutral (t : TeamInfo) (pd : List DraftedPlayer)
    (h : t.playersOwned.length < 2) :
    (detectOpponentStrategy t).detectedStrategy = .unknown
    ∧ (detectOpponentStrategy t).confidence = 0
    ∧ (detectOpponentStrategyB t pd).detectedStrategy = .unknown
    ∧ (detectOpponentStrategyB t pd).confidence = 0 := by
  simp only [detectOpponentStrategy, detectOpponentStrategyB]
  rw [if_pos h, if_pos h]
  exact ⟨rfl, rfl, rfl, rfl⟩

/-- Witness for C9 at Scenario C: one player owned, $190 remaining,
12 slots left. -/
theorem insufficient_history_neutral_witness :
    (detectOpponentStrategy oneOwnedTeam).detectedStrategy = .unknown
    ∧ (detectOpponentStrategy oneOwnedTeam).confidence = 0
    ∧ (detectOpponentStrategyB oneOwnedTeam []).detectedStrategy = .unknown
    ∧ (detectOpponentStrategyB oneOwnedTeam []).confidence = 0 :=
  insufficient_history_neutral oneOwnedTeam [] (by norm_num [oneOwnedTeam])
